import Mathlib

/-!
Verification development for the sendify-dbschenker-mcp adaptive-fetch core.

This file gives a shallow embedding, in Lean 4, of the CAPTCHA solver
(`src/services/captchaSolver.ts`), the HTTP client (`src/services/dbSchenkerClient.ts`)
and the tracking adapter (`src/adapters/DbSchenkerAdapter.ts`), and settles the
frozen claims C1..C10 about them.

Modelling conventions:
* Bytes are `Nat` values, kept below 256 by construction or hypothesis.
  JavaScript `Int8Array` cells are stored as their underlying unsigned bytes; the
  signed reading that `calculateTarget` performs is made explicit via `toSigned`.
* JavaScript strings are Lean `String`s (sequences of Unicode scalar values; lone
  UTF-16 surrogates are not representable and are replaced, as Node's UTF-8 codec
  also replaces them on the byte boundary).
* `Buffer.from(s, "base64")` is Node's forgiving decoder: characters outside the
  base64 alphabet (including `=` padding) are dropped, then complete 6-bit groups
  are decoded.  It never fails.
* `Buffer.toString("utf-8")` is lossy UTF-8 decoding with U+FFFD replacement.
* Arithmetic on JavaScript numbers that the program keeps small and integral
  (nonces, statuses, counters) is modelled with `Nat`; the backoff-delay
  arithmetic (floating point in JS) is modelled with `ℚ`; `BigInt` is `Int`.
* `Math.random()` is an oracle stream `Nat → ℚ` sampled at an explicit counter;
  uniformity is a property of the oracle, with range `[0,1)` taken as hypothesis.
* `Date.now()` is a per-call timestamp parameter (time does not advance inside a
  single call in the model).
-/

/-! ### Small string utilities (JS built-ins used by the sources) -/

/-- Does `s` start with `pat`? -/
def listStartsWith : List Char → List Char → Bool
  | [], _ => true
  | _ :: _, [] => false
  | p :: ps, c :: cs => p = c && listStartsWith ps cs

/-- Is `pat` a contiguous run somewhere in `s`? -/
def listHasRun (pat : List Char) : List Char → Bool
  | [] => pat.isEmpty
  | c :: rest => listStartsWith pat (c :: rest) || listHasRun pat rest

/-- JS `String.prototype.includes`: substring test. -/
def strContains (s pat : String) : Bool :=
  listHasRun pat.toList s.toList

/-- JS `String.prototype.substring(0, n)` (astral chars counted once; the
sources only ever truncate ASCII-ish error text, where this agrees with
UTF-16-unit counting). -/
def jsSubstr200 (s : String) : String :=
  ⟨s.toList.take 200⟩

/-- ASCII white space, the cases relevant to the trimmed header tokens.
JS `trim` also strips some exotic Unicode spaces; the sources only meet
ASCII ones. -/
def isJsSpace (c : Char) : Bool :=
  c = ' ' || c = '\t' || c = '\n' || c = '\r' || c.toNat = 11 || c.toNat = 12

/-- JS `String.prototype.trim` (ASCII subset, see `isJsSpace`). -/
def jsTrim (s : String) : String :=
  ⟨(s.toList.dropWhile isJsSpace).reverse.dropWhile isJsSpace |>.reverse⟩

/-- JS `String.prototype.split` with a one-character separator (the sources
split only on `,` and `.`).  Structural, so the kernel can evaluate it. -/
def splitOnCharGo (sep : Char) : List Char → List Char → List String
  | [], acc => [⟨acc.reverse⟩]
  | c :: rest, acc =>
    if c = sep then ⟨acc.reverse⟩ :: splitOnCharGo sep rest []
    else splitOnCharGo sep rest (c :: acc)

def jsSplitOnChar (sep : Char) (s : String) : List String := splitOnCharGo sep s.toList []

/-- JS `String.prototype.toLowerCase` (ASCII subset; the compared needles are
ASCII). -/
def asciiLower (s : String) : String :=
  ⟨s.toList.map fun c => if 'A' ≤ c ∧ c ≤ 'Z' then Char.ofNat (c.toNat + 32) else c⟩

/-- Lowercase hex digit, for `\u00xx` escapes and percent-encoding. -/
def hexDigitChar (n : Nat) : Char :=
  if n < 10 then Char.ofNat (48 + n) else Char.ofNat (87 + n)

/-- Uppercase hex digit (percent-encoding uses uppercase). -/
def hexDigitCharUpper (n : Nat) : Char :=
  if n < 10 then Char.ofNat (48 + n) else Char.ofNat (55 + n)

/-! ### Base64 (Node `Buffer` semantics) -/

def b64Alphabet : List Char :=
  "ABCDEFGHIJKLMNOPQRSTUVWXYZabcdefghijklmnopqrstuvwxyz0123456789+/".toList

/-- The character for a 6-bit value (values are < 64 by construction). -/
def b64Char (v : Nat) : Char := b64Alphabet.getD v '?'

/-- The 6-bit value of an alphabet character; `none` for everything else
(including `=`), which Node's forgiving decoder drops. -/
def b64Value (c : Char) : Option Nat := b64Alphabet.indexOf? c

/-- `Buffer.toString("base64")`: standard base64 with `=` padding. -/
def b64Enc : List Nat → List Char
  | a :: b :: c :: rest =>
      b64Char (a / 4) :: b64Char (a % 4 * 16 + b / 16) ::
      b64Char (b % 16 * 4 + c / 64) :: b64Char (c % 64) :: b64Enc rest
  | [a, b] => [b64Char (a / 4), b64Char (a % 4 * 16 + b / 16), b64Char (b % 16 * 4), '=']
  | [a] => [b64Char (a / 4), b64Char (a % 4 * 16), '=', '=']
  | [] => []

def base64EncodeBytes (bs : List Nat) : String := ⟨b64Enc bs⟩

/-- Reassemble bytes from a stream of 6-bit values (complete bytes only). -/
def b64DecVals : List Nat → List Nat
  | v₁ :: v₂ :: v₃ :: v₄ :: rest =>
      (v₁ * 4 + v₂ / 16) :: (v₂ % 16 * 16 + v₃ / 4) :: (v₃ % 4 * 64 + v₄) :: b64DecVals rest
  | [v₁, v₂, v₃] => [v₁ * 4 + v₂ / 16, v₂ % 16 * 16 + v₃ / 4]
  | [v₁, v₂] => [v₁ * 4 + v₂ / 16]
  | _ => []

/-- `Buffer.from(s, "base64")`: drop non-alphabet characters, decode the rest.
Total — outer decoding never fails in Node. -/
def base64DecodeForgiving (s : String) : List Nat :=
  b64DecVals (s.toList.filterMap b64Value)

theorem b64Value_b64Char : ∀ v < 64, b64Value (b64Char v) = some v := by decide

theorem b64Value_eq : b64Value '=' = none := by decide

/-- Base64 round trip on byte lists. -/
theorem base64_roundtrip : ∀ (bs : List Nat), (∀ b ∈ bs, b < 256) →
    base64DecodeForgiving (base64EncodeBytes bs) = bs
  | [], _ => rfl
  | [a], h => by
    have ha : a < 256 := h a (by simp)
    show b64DecVals ((b64Enc [a]).filterMap b64Value) = [a]
    rw [show b64Enc [a] = [b64Char (a / 4), b64Char (a % 4 * 16), '=', '='] from rfl]
    simp only [List.filterMap_cons, b64Value_b64Char (a / 4) (by omega),
      b64Value_b64Char (a % 4 * 16) (by omega), b64Value_eq, List.filterMap_nil]
    show [a / 4 * 4 + a % 4 * 16 / 16] = [a]
    congr 1
    omega
  | [a, b], h => by
    have ha : a < 256 := h a (by simp)
    have hb : b < 256 := h b (by simp)
    show b64DecVals ((b64Enc [a, b]).filterMap b64Value) = [a, b]
    rw [show b64Enc [a, b] =
      [b64Char (a / 4), b64Char (a % 4 * 16 + b / 16), b64Char (b % 16 * 4), '='] from rfl]
    simp only [List.filterMap_cons, b64Value_b64Char (a / 4) (by omega),
      b64Value_b64Char (a % 4 * 16 + b / 16) (by omega),
      b64Value_b64Char (b % 16 * 4) (by omega), b64Value_eq, List.filterMap_nil]
    show [a / 4 * 4 + (a % 4 * 16 + b / 16) / 16,
          (a % 4 * 16 + b / 16) % 16 * 16 + b % 16 * 4 / 4] = [a, b]
    congr 1
    · omega
    · congr 1
      omega
  | a :: b :: c :: rest, h => by
    have ha : a < 256 := h a (by simp)
    have hb : b < 256 := h b (by simp)
    have hc : c < 256 := h c (by simp)
    have ih := base64_roundtrip rest (fun x hx => h x (by simp [hx]))
    show b64DecVals ((b64Enc (a :: b :: c :: rest)).filterMap b64Value) = _
    rw [show b64Enc (a :: b :: c :: rest) =
      b64Char (a / 4) :: b64Char (a % 4 * 16 + b / 16) ::
      b64Char (b % 16 * 4 + c / 64) :: b64Char (c % 64) :: b64Enc rest from rfl]
    simp only [List.filterMap_cons, b64Value_b64Char (a / 4) (by omega),
      b64Value_b64Char (a % 4 * 16 + b / 16) (by omega),
      b64Value_b64Char (b % 16 * 4 + c / 64) (by omega),
      b64Value_b64Char (c % 64) (by omega)]
    show (a / 4 * 4 + (a % 4 * 16 + b / 16) / 16) ::
         ((a % 4 * 16 + b / 16) % 16 * 16 + (b % 16 * 4 + c / 64) / 4) ::
         ((b % 16 * 4 + c / 64) % 4 * 64 + c % 64) ::
         b64DecVals ((b64Enc rest).filterMap b64Value) = a :: b :: c :: rest
    rw [show a / 4 * 4 + (a % 4 * 16 + b / 16) / 16 = a by omega,
      show (a % 4 * 16 + b / 16) % 16 * 16 + (b % 16 * 4 + c / 64) / 4 = b by omega,
      show (b % 16 * 4 + c / 64) % 4 * 64 + c % 64 = c by omega]
    exact congrArg (a :: b :: c :: ·) ih

/-! ### UTF-8 (Node `Buffer` semantics: lossy decode with U+FFFD) -/

def replChar : Char := Char.ofNat 65533

/-- A scalar value as a `Char`, or U+FFFD when out of range. -/
def mkCharOr (n : Nat) : Char := if n.isValidChar then Char.ofNat n else replChar

/-- UTF-8 encoding of one scalar value. -/
def utf8EncodeChar (c : Char) : List Nat :=
  let n := c.toNat
  if n < 128 then [n]
  else if n < 2048 then [192 + n / 64, 128 + n % 64]
  else if n < 65536 then [224 + n / 4096, 128 + n / 64 % 64, 128 + n % 64]
  else [240 + n / 262144, 128 + n / 4096 % 64, 128 + n / 64 % 64, 128 + n % 64]

def utf8EncodeList : List Char → List Nat
  | [] => []
  | c :: cs => utf8EncodeChar c ++ utf8EncodeList cs

/-- `Buffer.from(s, "utf-8")`. -/
def utf8Encode (s : String) : List Nat := utf8EncodeList s.toList

/-- Decode one scalar from a lead byte and the bytes after it; invalid
sequences give one U+FFFD (Node's decoder may group invalid bytes slightly
differently, which no claim observes).  Missing continuation bytes read as 0
via `headD`, which fails the range checks, so nothing past the end is taken. -/
def utf8Step (b : Nat) (rest : List Nat) : Char × List Nat :=
  if b < 128 then (mkCharOr b, rest)
  else if b < 192 then (replChar, rest)
  else if b < 224 then
    if 128 ≤ rest.headD 0 ∧ rest.headD 0 < 192 then
      (mkCharOr ((b - 192) * 64 + (rest.headD 0 - 128)), rest.tail)
    else (replChar, rest)
  else if b < 240 then
    if 128 ≤ rest.headD 0 ∧ rest.headD 0 < 192 ∧
        128 ≤ rest.tail.headD 0 ∧ rest.tail.headD 0 < 192 then
      (mkCharOr ((b - 224) * 4096 + (rest.headD 0 - 128) * 64 + (rest.tail.headD 0 - 128)),
       rest.tail.tail)
    else (replChar, rest)
  else if b < 248 then
    if 128 ≤ rest.headD 0 ∧ rest.headD 0 < 192 ∧
        128 ≤ rest.tail.headD 0 ∧ rest.tail.headD 0 < 192 ∧
        128 ≤ rest.tail.tail.headD 0 ∧ rest.tail.tail.headD 0 < 192 then
      (mkCharOr ((b - 240) * 262144 + (rest.headD 0 - 128) * 4096 +
        (rest.tail.headD 0 - 128) * 64 + (rest.tail.tail.headD 0 - 128)),
       rest.tail.tail.tail)
    else (replChar, rest)
  else (replChar, rest)

theorem utf8Step_len (b : Nat) (rest : List Nat) :
    (utf8Step b rest).2.length ≤ rest.length := by
  have h1 : rest.tail.length ≤ rest.length := by
    cases rest <;> simp
  have h2 : rest.tail.tail.length ≤ rest.tail.length := by
    cases rest.tail <;> simp
  have h3 : rest.tail.tail.tail.length ≤ rest.tail.tail.length := by
    cases rest.tail.tail <;> simp
  unfold utf8Step
  repeat' split
  all_goals simp
  all_goals omega

def utf8DecodeFuel : Nat → List Nat → List Char
  | 0, _ => []
  | _, [] => []
  | fuel + 1, b :: rest => (utf8Step b rest).1 :: utf8DecodeFuel fuel (utf8Step b rest).2

/-- `Buffer.toString("utf-8")` on a byte list.  Each step consumes at least
one byte, so `length` fuel always suffices (`utf8DecodeFuel_stable`). -/
def utf8Decode (bs : List Nat) : List Char := utf8DecodeFuel bs.length bs

theorem utf8DecodeFuel_stable :
    ∀ fuel bs, List.length bs ≤ fuel → utf8DecodeFuel fuel bs = utf8Decode bs := by
  intro fuel
  induction fuel using Nat.strong_induction_on with
  | _ fuel ih =>
    intro bs hle
    match fuel, bs with
    | 0, [] => rfl
    | 0, b :: rest => simp at hle
    | fuel + 1, [] => rfl
    | fuel + 1, b :: rest =>
      have hstep := utf8Step_len b rest
      have hlen : List.length rest + 1 ≤ fuel + 1 := by simpa using hle
      show (utf8Step b rest).1 :: utf8DecodeFuel fuel (utf8Step b rest).2 = utf8Decode (b :: rest)
      rw [ih fuel (Nat.lt_succ_self fuel) _ (by omega)]
      show _ = utf8DecodeFuel (List.length (b :: rest)) (b :: rest)
      rw [show List.length (b :: rest) = List.length rest + 1 from rfl]
      show _ = (utf8Step b rest).1 :: utf8DecodeFuel (List.length rest) (utf8Step b rest).2
      rw [ih (List.length rest) (by omega) _ (by omega)]

theorem utf8Decode_cons (b : Nat) (rest : List Nat) :
    utf8Decode (b :: rest) = (utf8Step b rest).1 :: utf8Decode (utf8Step b rest).2 := by
  show utf8DecodeFuel (List.length rest + 1) (b :: rest) = _
  show (utf8Step b rest).1 :: utf8DecodeFuel (List.length rest) (utf8Step b rest).2 = _
  rw [utf8DecodeFuel_stable (List.length rest) _ (utf8Step_len b rest)]

/-- `Buffer.toString("utf-8")` producing a `String`. -/
def utf8DecodeStr (bs : List Nat) : String := ⟨utf8Decode bs⟩

theorem mkCharOr_toNat (c : Char) : mkCharOr c.toNat = c := by
  have h : c.toNat.isValidChar := c.valid
  rw [mkCharOr, if_pos h, Char.ofNat_toNat]

theorem utf8EncodeChar_bytes_lt (c : Char) : ∀ b ∈ utf8EncodeChar c, b < 256 := by
  have hv : c.toNat.isValidChar := c.valid
  have hlt : c.toNat < 1114112 := by
    rcases hv with h | h <;> omega
  intro b hb
  rw [utf8EncodeChar] at hb
  split at hb <;> [skip; split at hb] <;> [skip; skip; split at hb] <;>
    simp only [List.mem_cons, List.mem_singleton, List.not_mem_nil] at hb <;>
    rcases hb with rfl | hb <;> first
      | omega
      | (rcases hb with rfl | hb <;> first
          | omega
          | (rcases hb with rfl | hb <;> first
              | omega
              | (rcases hb with rfl | hb <;> first | omega | cases hb)))

theorem utf8EncodeChar_eq1 {c : Char} (h : c.toNat < 128) :
    utf8EncodeChar c = [c.toNat] := by
  simp only [utf8EncodeChar]
  rw [if_pos h]

theorem utf8EncodeChar_eq2 {c : Char} (h1 : ¬c.toNat < 128) (h2 : c.toNat < 2048) :
    utf8EncodeChar c = [192 + c.toNat / 64, 128 + c.toNat % 64] := by
  simp only [utf8EncodeChar]
  rw [if_neg h1, if_pos h2]

theorem utf8EncodeChar_eq3 {c : Char} (h1 : ¬c.toNat < 128) (h2 : ¬c.toNat < 2048)
    (h3 : c.toNat < 65536) :
    utf8EncodeChar c = [224 + c.toNat / 4096, 128 + c.toNat / 64 % 64, 128 + c.toNat % 64] := by
  simp only [utf8EncodeChar]
  rw [if_neg h1, if_neg h2, if_pos h3]

theorem utf8EncodeChar_eq4 {c : Char} (h1 : ¬c.toNat < 128) (h2 : ¬c.toNat < 2048)
    (h3 : ¬c.toNat < 65536) :
    utf8EncodeChar c = [240 + c.toNat / 262144, 128 + c.toNat / 4096 % 64,
      128 + c.toNat / 64 % 64, 128 + c.toNat % 64] := by
  simp only [utf8EncodeChar]
  rw [if_neg h1, if_neg h2, if_neg h3]

/-- Decoding an encoded scalar consumes exactly its bytes. -/
theorem utf8Decode_encChar (c : Char) (tail : List Nat) :
    utf8Decode (utf8EncodeChar c ++ tail) = c :: utf8Decode tail := by
  have hv : c.toNat.isValidChar := c.valid
  have hlt : c.toNat < 1114112 := by rcases hv with h | h <;> omega
  by_cases h1 : c.toNat < 128
  · rw [utf8EncodeChar_eq1 h1, List.cons_append, List.nil_append, utf8Decode_cons]
    have hs : utf8Step c.toNat tail = (c, tail) := by
      unfold utf8Step
      rw [if_pos h1, mkCharOr_toNat]
    rw [hs]
  · by_cases h2 : c.toNat < 2048
    · rw [utf8EncodeChar_eq2 h1 h2, List.cons_append, List.cons_append, List.nil_append,
        utf8Decode_cons]
      have hs : utf8Step (192 + c.toNat / 64) ((128 + c.toNat % 64) :: tail) = (c, tail) := by
        have c1 : ¬(192 + c.toNat / 64 < 128) := by omega
        have c2 : ¬(192 + c.toNat / 64 < 192) := by omega
        have c3 : 192 + c.toNat / 64 < 224 := by omega
        unfold utf8Step
        rw [if_neg c1, if_neg c2, if_pos c3]
        simp only [List.headD_cons, List.tail_cons]
        have c4 : 128 ≤ 128 + c.toNat % 64 ∧ 128 + c.toNat % 64 < 192 := by omega
        rw [if_pos c4,
          show (192 + c.toNat / 64 - 192) * 64 + (128 + c.toNat % 64 - 128) = c.toNat by omega,
          mkCharOr_toNat]
      rw [hs]
    · by_cases h3 : c.toNat < 65536
      · rw [utf8EncodeChar_eq3 h1 h2 h3, List.cons_append, List.cons_append, List.cons_append,
          List.nil_append, utf8Decode_cons]
        have hs : utf8Step (224 + c.toNat / 4096)
            ((128 + c.toNat / 64 % 64) :: (128 + c.toNat % 64) :: tail) = (c, tail) := by
          have c1 : ¬(224 + c.toNat / 4096 < 128) := by omega
          have c2 : ¬(224 + c.toNat / 4096 < 192) := by omega
          have c3 : ¬(224 + c.toNat / 4096 < 224) := by omega
          have c4 : 224 + c.toNat / 4096 < 240 := by omega
          unfold utf8Step
          rw [if_neg c1, if_neg c2, if_neg c3, if_pos c4]
          simp only [List.headD_cons, List.tail_cons]
          have c5 : 128 ≤ 128 + c.toNat / 64 % 64 ∧ 128 + c.toNat / 64 % 64 < 192 ∧
              128 ≤ 128 + c.toNat % 64 ∧ 128 + c.toNat % 64 < 192 := by omega
          rw [if_pos c5,
            show (224 + c.toNat / 4096 - 224) * 4096 + (128 + c.toNat / 64 % 64 - 128) * 64 +
              (128 + c.toNat % 64 - 128) = c.toNat by omega,
            mkCharOr_toNat]
        rw [hs]
      · rw [utf8EncodeChar_eq4 h1 h2 h3, List.cons_append, List.cons_append, List.cons_append,
          List.cons_append, List.nil_append, utf8Decode_cons]
        have hs : utf8Step (240 + c.toNat / 262144)
            ((128 + c.toNat / 4096 % 64) :: (128 + c.toNat / 64 % 64) ::
              (128 + c.toNat % 64) :: tail) = (c, tail) := by
          have c1 : ¬(240 + c.toNat / 262144 < 128) := by omega
          have c2 : ¬(240 + c.toNat / 262144 < 192) := by omega
          have c3 : ¬(240 + c.toNat / 262144 < 224) := by omega
          have c4 : ¬(240 + c.toNat / 262144 < 240) := by omega
          have c5 : 240 + c.toNat / 262144 < 248 := by omega
          unfold utf8Step
          rw [if_neg c1, if_neg c2, if_neg c3, if_neg c4, if_pos c5]
          simp only [List.headD_cons, List.tail_cons]
          have c6 : 128 ≤ 128 + c.toNat / 4096 % 64 ∧ 128 + c.toNat / 4096 % 64 < 192 ∧
              128 ≤ 128 + c.toNat / 64 % 64 ∧ 128 + c.toNat / 64 % 64 < 192 ∧
              128 ≤ 128 + c.toNat % 64 ∧ 128 + c.toNat % 64 < 192 := by omega
          rw [if_pos c6,
            show (240 + c.toNat / 262144 - 240) * 262144 +
              (128 + c.toNat / 4096 % 64 - 128) * 4096 +
              (128 + c.toNat / 64 % 64 - 128) * 64 + (128 + c.toNat % 64 - 128) = c.toNat
              by omega,
            mkCharOr_toNat]
        rw [hs]

theorem utf8Decode_encodeList : ∀ cs : List Char, utf8Decode (utf8EncodeList cs) = cs
  | [] => by rw [utf8EncodeList]; rfl
  | c :: cs => by
    rw [utf8EncodeList, utf8Decode_encChar, utf8Decode_encodeList cs]

/-- UTF-8 round trip on strings. -/
theorem utf8_roundtrip (s : String) : utf8DecodeStr (utf8Encode s) = s := by
  rw [utf8Encode, utf8DecodeStr, utf8Decode_encodeList]
  cases s
  rfl

theorem utf8EncodeList_bytes_lt : ∀ cs : List Char, ∀ b ∈ utf8EncodeList cs, b < 256
  | [], _, hb => by cases hb
  | c :: cs, b, hb => by
    rw [utf8EncodeList] at hb
    rcases List.mem_append.mp hb with h | h
    · exact utf8EncodeChar_bytes_lt c b h
    · exact utf8EncodeList_bytes_lt cs b h

theorem utf8Encode_bytes_lt (s : String) : ∀ b ∈ utf8Encode s, b < 256 :=
  utf8EncodeList_bytes_lt s.toList

/-! ### JSON values (`JSON.parse` / `JSON.stringify` / property access) -/

/-- A parsed JSON value.  Numbers keep their source lexeme: no claim does
arithmetic on parsed numbers, and JS number formatting is out of scope. -/
inductive Json where
  | null
  | bool (b : Bool)
  | num (raw : String)
  | str (s : String)
  | arr (elems : List Json)
  | obj (members : List (String × Json))

/-- JS property access `j[k]`, `none` = `undefined`.  (Property access on
`null` throws in JS; the adapter only reaches it behind truthiness guards,
and the model returns `undefined` there.) -/
def jsonGet (j : Json) (k : String) : Option Json :=
  match j with
  | .obj kvs => kvs.lookup k
  | _ => none

/-- JS truthiness of a JSON value.  Number truthiness is modelled on the
lexeme for the zero spellings that can reach it. -/
def jsTruthy : Json → Bool
  | .null => false
  | .bool b => b
  | .str s => !s.isEmpty
  | .num r => !(r = "0" || r = "-0" || r = "0.0")
  | .arr _ => true
  | .obj _ => true

/-- `a ?? …` treats `null` like `undefined`. -/
def jsNullish (o : Option Json) : Option Json :=
  match o with
  | some .null => none
  | x => x

/-- JSON string escaping as `JSON.stringify` performs it. -/
def escCharJson (c : Char) : List Char :=
  if c = '"' then ['\\', '"']
  else if c = '\\' then ['\\', '\\']
  else if c.toNat = 8 then ['\\', 'b']
  else if c.toNat = 9 then ['\\', 't']
  else if c.toNat = 10 then ['\\', 'n']
  else if c.toNat = 12 then ['\\', 'f']
  else if c.toNat = 13 then ['\\', 'r']
  else if c.toNat < 32 then
    ['\\', 'u', '0', '0', hexDigitChar (c.toNat / 16), hexDigitChar (c.toNat % 16)]
  else [c]

def escJsonList : List Char → List Char
  | [] => []
  | c :: cs => escCharJson c ++ escJsonList cs

def jsonQuote (s : String) : String := ⟨'"' :: (escJsonList s.toList ++ ['"'])⟩

mutual

def jsonStringify : Json → String
  | .null => "null"
  | .bool true => "true"
  | .bool false => "false"
  | .num raw => raw
  | .str s => jsonQuote s
  | .arr xs => "[" ++ jsonStringifyElems xs ++ "]"
  | .obj kvs => "\x7b" ++ jsonStringifyMembers kvs ++ "\x7d"

def jsonStringifyElems : List Json → String
  | [] => ""
  | [x] => jsonStringify x
  | x :: y :: rest => jsonStringify x ++ "," ++ jsonStringifyElems (y :: rest)

def jsonStringifyMembers : List (String × Json) → String
  | [] => ""
  | [(k, v)] => jsonQuote k ++ ":" ++ jsonStringify v
  | (k, v) :: m :: rest =>
      jsonQuote k ++ ":" ++ jsonStringify v ++ "," ++ jsonStringifyMembers (m :: rest)

end

/-- JSON-significant white space (`JSON.parse` accepts exactly these). -/
def jsonWsChar (c : Char) : Bool := c = ' ' || c = '\t' || c = '\n' || c = '\r'

def skipJsonWs : List Char → List Char
  | [] => []
  | c :: rest => if jsonWsChar c then skipJsonWs rest else c :: rest

def hexVal (c : Char) : Option Nat :=
  if '0' ≤ c ∧ c ≤ '9' then some (c.toNat - 48)
  else if 'a' ≤ c ∧ c ≤ 'f' then some (c.toNat - 87)
  else if 'A' ≤ c ∧ c ≤ 'F' then some (c.toNat - 55)
  else none

-- The escape handling and the four hex digits of a string body are split
-- into mutually recursive helpers so that every match is single-level (each
-- helper's equations then apply with a symbolic remainder).
mutual

/-- Parse a JSON string body (after the opening quote), returning content and
the input after the closing quote.  Surrogate `\uXXXX` escapes become U+FFFD
(Lean `Char` has no lone surrogates; `JSON.stringify` output never contains
them, and no claim observes them). -/
def parseJsonString : List Char → Option (List Char × List Char)
  | [] => none
  | c :: rest =>
    if c = '"' then some ([], rest)
    else if c = '\\' then parseJsonEscape rest
    else if c.toNat < 32 then none
    else (parseJsonString rest).map (fun p => (c :: p.1, p.2))

def parseJsonEscape : List Char → Option (List Char × List Char)
  | [] => none
  | e :: rest₂ =>
    if e = '"' then (parseJsonString rest₂).map (fun p => ('"' :: p.1, p.2))
    else if e = '\\' then (parseJsonString rest₂).map (fun p => ('\\' :: p.1, p.2))
    else if e = '/' then (parseJsonString rest₂).map (fun p => ('/' :: p.1, p.2))
    else if e = 'b' then (parseJsonString rest₂).map (fun p => (Char.ofNat 8 :: p.1, p.2))
    else if e = 'f' then (parseJsonString rest₂).map (fun p => (Char.ofNat 12 :: p.1, p.2))
    else if e = 'n' then (parseJsonString rest₂).map (fun p => ('\n' :: p.1, p.2))
    else if e = 'r' then (parseJsonString rest₂).map (fun p => (Char.ofNat 13 :: p.1, p.2))
    else if e = 't' then (parseJsonString rest₂).map (fun p => ('\t' :: p.1, p.2))
    else if e = 'u' then parseJsonHex1 rest₂
    else none

def parseJsonHex1 : List Char → Option (List Char × List Char)
  | [] => none
  | h₁ :: r =>
    match hexVal h₁ with
    | none => none
    | some v₁ => parseJsonHex2 v₁ r

def parseJsonHex2 (v₁ : Nat) : List Char → Option (List Char × List Char)
  | [] => none
  | h₂ :: r =>
    match hexVal h₂ with
    | none => none
    | some v₂ => parseJsonHex3 v₁ v₂ r

def parseJsonHex3 (v₁ v₂ : Nat) : List Char → Option (List Char × List Char)
  | [] => none
  | h₃ :: r =>
    match hexVal h₃ with
    | none => none
    | some v₃ => parseJsonHex4 v₁ v₂ v₃ r

def parseJsonHex4 (v₁ v₂ v₃ : Nat) : List Char → Option (List Char × List Char)
  | [] => none
  | h₄ :: r =>
    match hexVal h₄ with
    | none => none
    | some v₄ =>
      (parseJsonString r).map
        (fun p => (mkCharOr (v₁ * 4096 + v₂ * 256 + v₃ * 16 + v₄) :: p.1, p.2))

end

/-- Integer part of a JSON number (no leading zeros). -/
def parseJsonInt : List Char → Option (List Char × List Char)
  | '0' :: r => if (r.headD ' ').isDigit then none else some (['0'], r)
  | c :: r =>
      if c.isDigit then
        let p := r.span (fun d => d.isDigit)
        some (c :: p.1, p.2)
      else none
  | [] => none

def parseJsonFrac : List Char → Option (List Char × List Char)
  | '.' :: r =>
      let p := r.span (fun d => d.isDigit)
      if p.1.isEmpty then none else some ('.' :: p.1, p.2)
  | l => some ([], l)

def parseJsonExp : List Char → Option (List Char × List Char)
  | e :: r =>
      if e = 'e' ∨ e = 'E' then
        let sp := match r with
          | '+' :: t => (['+'], t)
          | '-' :: t => (['-'], t)
          | _ => (([] : List Char), r)
        let p := sp.2.span (fun d => d.isDigit)
        if p.1.isEmpty then none else some (e :: (sp.1 ++ p.1), p.2)
      else some ([], e :: r)
  | [] => some ([], [])

/-- A JSON number lexeme. -/
def parseJsonNumber (l : List Char) : Option (List Char × List Char) := do
  let sp := match l with
    | '-' :: t => ((['-'] : List Char), t)
    | _ => (([] : List Char), l)
  let (i, r₁) ← parseJsonInt sp.2
  let (f, r₂) ← parseJsonFrac r₁
  let (x, r₃) ← parseJsonExp r₂
  some (sp.1 ++ i ++ f ++ x, r₃)

mutual

/-- `JSON.parse`: one value.  The fuel only bounds nesting; `jsonParse` hands
in more fuel than any input can consume.  Bracket lookahead is phrased with
`headD`/`tail` (equivalent to matching, since a missing head reads as a
space, which fails every comparison). -/
def parseJsonValue : Nat → List Char → Option (Json × List Char)
  | 0, _ => none
  | fuel + 1, l =>
    match skipJsonWs l with
    | [] => none
    | c :: rest =>
      if c = '"' then (parseJsonString rest).map (fun p => (Json.str ⟨p.1⟩, p.2))
      else if c = '[' then
        if (skipJsonWs rest).headD ' ' = ']' then some (Json.arr [], (skipJsonWs rest).tail)
        else (parseJsonElems fuel (skipJsonWs rest)).map (fun p => (Json.arr p.1, p.2))
      else if c = '\x7b' then
        if (skipJsonWs rest).headD ' ' = '\x7d' then some (Json.obj [], (skipJsonWs rest).tail)
        else (parseJsonMembers fuel (skipJsonWs rest)).map (fun p => (Json.obj p.1, p.2))
      else if c = 't' then
        match rest with
        | 'r' :: 'u' :: 'e' :: r => some (Json.bool true, r)
        | _ => none
      else if c = 'f' then
        match rest with
        | 'a' :: 'l' :: 's' :: 'e' :: r => some (Json.bool false, r)
        | _ => none
      else if c = 'n' then
        match rest with
        | 'u' :: 'l' :: 'l' :: r => some (Json.null, r)
        | _ => none
      else (parseJsonNumber (c :: rest)).map (fun p => (Json.num ⟨p.1⟩, p.2))

/-- Elements of a non-empty array, up to and including `]`. -/
def parseJsonElems : Nat → List Char → Option (List Json × List Char)
  | 0, _ => none
  | fuel + 1, l =>
    match parseJsonValue fuel l with
    | none => none
    | some (v, r₁) =>
      if (skipJsonWs r₁).headD ' ' = ',' then
        match parseJsonElems fuel ((skipJsonWs r₁).tail) with
        | none => none
        | some (vs, r₃) => some (v :: vs, r₃)
      else if (skipJsonWs r₁).headD ' ' = ']' then some ([v], (skipJsonWs r₁).tail)
      else none

/-- Members of a non-empty object, up to and including the closing brace. -/
def parseJsonMembers : Nat → List Char → Option (List (String × Json) × List Char)
  | 0, _ => none
  | fuel + 1, l =>
    if (skipJsonWs l).headD ' ' = '"' then
      match parseJsonString ((skipJsonWs l).tail) with
      | none => none
      | some (k, r₁) =>
        if (skipJsonWs r₁).headD ' ' = ':' then
          match parseJsonValue fuel ((skipJsonWs r₁).tail) with
          | none => none
          | some (v, r₃) =>
            if (skipJsonWs r₃).headD ' ' = ',' then
              match parseJsonMembers fuel ((skipJsonWs r₃).tail) with
              | none => none
              | some (ms, r₅) => some ((⟨k⟩, v) :: ms, r₅)
            else if (skipJsonWs r₃).headD ' ' = '\x7d' then some ([(⟨k⟩, v)], (skipJsonWs r₃).tail)
            else none
        else none
    else none

end

/-- `JSON.parse` (returns `none` where JS throws a `SyntaxError`).  Duplicate
object keys keep both members, first one visible to `jsonGet` — JS keeps the
last; no source object has duplicate keys. -/
def jsonParse (s : String) : Option Json :=
  match parseJsonValue (2 * s.length + 2) s.toList with
  | some (j, rest) => if (skipJsonWs rest).isEmpty then some j else none
  | none => none

/-! ### SHA-256 (FIPS 180-4), the platform primitive behind
`createHash("sha256")`.  32-bit words are `Nat`s kept below `2^32`. -/

def w32 (n : Nat) : Nat := n % 4294967296

def rotr32 (s a : Nat) : Nat := a / 2 ^ s + a % 2 ^ s * 2 ^ (32 - s)

def shr32 (s a : Nat) : Nat := a / 2 ^ s

def xor3 (a b c : Nat) : Nat := Nat.xor (Nat.xor a b) c

def bsig0 (a : Nat) : Nat := xor3 (rotr32 2 a) (rotr32 13 a) (rotr32 22 a)

def bsig1 (a : Nat) : Nat := xor3 (rotr32 6 a) (rotr32 11 a) (rotr32 25 a)

def ssig0 (a : Nat) : Nat := xor3 (rotr32 7 a) (rotr32 18 a) (shr32 3 a)

def ssig1 (a : Nat) : Nat := xor3 (rotr32 17 a) (rotr32 19 a) (shr32 10 a)

def chF (e f g : Nat) : Nat := Nat.xor (Nat.land e f) (Nat.land (4294967295 - e) g)

def majF (a b c : Nat) : Nat := xor3 (Nat.land a b) (Nat.land a c) (Nat.land b c)

def shaK : List Nat :=
  [1116352408, 1899447441, 3049323471, 3921009573, 961987163, 1508970993,
   2453635748, 2870763221, 3624381080, 310598401, 607225278, 1426881987,
   1925078388, 2162078206, 2614888103, 3248222580, 3835390401, 4022224774,
   264347078, 604807628, 770255983, 1249150122, 1555081692, 1996064986,
   2554220882, 2821834349, 2952996808, 3210313671, 3336571891, 3584528711,
   113926993, 338241895, 666307205, 773529912, 1294757372, 1396182291,
   1695183700, 1986661051, 2177026350, 2456956037, 2730485921, 2820302411,
   3259730800, 3345764771, 3516065817, 3600352804, 4094571909, 275423344,
   430227734, 506948616, 659060556, 883997877, 958139571, 1322822218,
   1537002063, 1747873779, 1955562222, 2024104815, 2227730452, 2361852424,
   2428436474, 2756734187, 3204031479, 3329325298]

def shaH0 : List Nat :=
  [1779033703, 3144134277, 1013904242, 2773480762,
   1359893119, 2600822924, 528734635, 1541459225]

def be64 (n : Nat) : List Nat :=
  [n / 2 ^ 56 % 256, n / 2 ^ 48 % 256, n / 2 ^ 40 % 256, n / 2 ^ 32 % 256,
   n / 2 ^ 24 % 256, n / 2 ^ 16 % 256, n / 2 ^ 8 % 256, n % 256]

def be32Bytes (w : Nat) : List Nat :=
  [w / 16777216 % 256, w / 65536 % 256, w / 256 % 256, w % 256]

def shaPad (msg : List Nat) : List Nat :=
  msg ++ 128 :: (List.replicate ((119 - msg.length % 64) % 64) 0 ++ be64 (8 * msg.length))

def toWords : List Nat → List Nat
  | a :: b :: c :: d :: rest => (((a * 256 + b) * 256 + c) * 256 + d) :: toWords rest
  | _ => []

/-- Fold the compression function over 64-byte blocks (fuel-structural; one
unit of fuel per byte is more than one per block). -/
def shaBlocksGo (compress : List Nat → List Nat → List Nat) :
    Nat → List Nat → List Nat → List Nat
  | 0, h, _ => h
  | _ + 1, h, [] => h
  | fuel + 1, h, l => shaBlocksGo compress fuel (compress h (l.take 64)) (l.drop 64)

def extendW : List Nat → Nat → List Nat
  | ws, 0 => ws
  | ws, k + 1 =>
    let n := ws.length
    extendW (ws ++ [w32 (ssig1 (ws.getD (n - 2) 0) + ws.getD (n - 7) 0 +
      ssig0 (ws.getD (n - 15) 0) + ws.getD (n - 16) 0)]) k

def shaSchedule (block : List Nat) : List Nat := extendW (toWords block) 48

def shaRound (st : List Nat) (kw : Nat × Nat) : List Nat :=
  let a := st.getD 0 0
  let b := st.getD 1 0
  let c := st.getD 2 0
  let d := st.getD 3 0
  let e := st.getD 4 0
  let f := st.getD 5 0
  let g := st.getD 6 0
  let h := st.getD 7 0
  let t₁ := w32 (h + bsig1 e + chF e f g + kw.1 + kw.2)
  let t₂ := w32 (bsig0 a + majF a b c)
  [w32 (t₁ + t₂), a, b, c, w32 (d + t₁), e, f, g]

def compressBlock (h : List Nat) (block : List Nat) : List Nat :=
  let st := (shaK.zip (shaSchedule block)).foldl shaRound h
  (h.zip st).map (fun p => w32 (p.1 + p.2))

def wordsToBytes : List Nat → List Nat
  | [] => []
  | w :: ws => be32Bytes w ++ wordsToBytes ws

/-- SHA-256 digest (32 bytes) of a byte list. -/
def sha256 (msg : List Nat) : List Nat :=
  wordsToBytes (shaBlocksGo compressBlock (shaPad msg).length shaH0 (shaPad msg))

set_option maxRecDepth 100000 in
/-- Known-answer check: `SHA-256("abc")` (FIPS 180-4 test vector), validating
the embedding of the hash primitive. -/
theorem sha256_abc :
    sha256 (utf8Encode "abc") =
      [0xba, 0x78, 0x16, 0xbf, 0x8f, 0x01, 0xcf, 0xea, 0x41, 0x41, 0x40, 0xde,
       0x5d, 0xae, 0x22, 0x23, 0xb0, 0x03, 0x61, 0xa3, 0x96, 0x17, 0x7a, 0x9c,
       0xb4, 0x10, 0xff, 0x61, 0xf2, 0x00, 0x15, 0xad] := by
  decide

/-! ### `src/services/captchaSolver.ts` -/

/-- One entry of the outbound solution array (`{jwt, solution}`). -/
structure CaptchaSolutionPair where
  jwt : String
  solution : String

/-- One decoded puzzle (`{jwt, puzzle}`); `puzzle` holds the unsigned bytes
underlying the `Int8Array`. -/
structure PuzzleData where
  jwt : String
  puzzle : List Nat

/-- The non-blank comma-separated tokens of the decoded challenge header
(`atob`-style decode, split on `,`, drop blank fragments). -/
def challengeTokens (puzzleHeader : String) : List String :=
  (jsSplitOnChar ',' (utf8DecodeStr (base64DecodeForgiving puzzleHeader))).filter
    (fun jwt => !(jsTrim jwt).isEmpty)

/-- The per-token body of `parsePuzzle`: three-segment check, payload
presence, payload decode (`JSON.parse` of the base64-decoded middle
segment), and the `puzzle` field. -/
def parseToken (jwt : String) : Except String PuzzleData :=
  if (jsSplitOnChar '.' (jsTrim jwt)).length ≠ 3 then .error "Invalid JWT format"
  else if (jsSplitOnChar '.' (jsTrim jwt)).getD 1 "" = "" then .error "Missing JWT payload"
  else
    match jsonParse (utf8DecodeStr (base64DecodeForgiving
        ((jsSplitOnChar '.' (jsTrim jwt)).getD 1 ""))) with
    | none => .error "Unexpected token in JSON"
    | some payload =>
      match jsonGet payload "puzzle" with
      | some (.str s) =>
        if s = "" then .error "Missing or invalid puzzle field in JWT payload"
        else .ok { jwt := jsTrim jwt, puzzle := base64DecodeForgiving s }
      | some _ => .error "Missing or invalid puzzle field in JWT payload"
      | none => .error "Missing or invalid puzzle field in JWT payload"

/-- `jwts.map(...)` with exceptions: tokens are processed left to right and
the first failure propagates. -/
def mapTokens : List String → Except String (List PuzzleData)
  | [] => .ok []
  | t :: ts =>
    match parseToken t with
    | .error e => .error e
    | .ok pd =>
      match mapTokens ts with
      | .error e => .error e
      | .ok rest => .ok (pd :: rest)

/-- `parsePuzzle`: decode the `Captcha-Puzzle` header into puzzle data.
`Buffer.from(hdr, "base64")` never fails, so outer decoding is total;
failures come from token shape, the embedded payload, or the puzzle field. -/
def parsePuzzle (puzzleHeader : String) : Except String (List PuzzleData) :=
  mapTokens (challengeTokens puzzleHeader)

/-- `numberToInt8Array`: 8 little-endian bytes of a non-negative number
( `255 & v` then `v := (v - byte)/256`, which on naturals is `v / 256`). -/
def n8Go : Nat → Nat → List Nat
  | 0, _ => []
  | k + 1, v => v % 256 :: n8Go k (v / 256)

def numberToInt8Array (n : Nat) : List Nat := n8Go 8 n

/-- The signed reading of an `Int8Array` cell. -/
def toSigned (b : Nat) : Int := if b < 128 then (b : Int) else (b : Int) - 256

/-- `calculateTarget`.  The source computes the power with
`power = 2; for (i = 1; i < exponent; i++) power *= 2`, which yields
`2 ^ exponent` for `exponent ≥ 1` but `2` for every `exponent ≤ 1`
(in particular for the zero and negative exponents that `puzzle[13] ≤ 3`
produces).  The `undefined` guards cannot fire once the length check
passed. -/
def calculateTarget (puzzle : List Nat) : Except String Int :=
  if puzzle.length < 15 then .error "Puzzle data too short - need at least 15 bytes"
  else
    .ok (toSigned (puzzle.getD 14 0) *
      (if 8 * (toSigned (puzzle.getD 13 0) - 3) ≤ 1 then 2
       else 2 ^ (8 * (toSigned (puzzle.getD 13 0) - 3)).toNat))

/-- Little-endian value of a digest (`result = result * 256 + hash2[i]`,
iterating from the last byte down). -/
def leNat (bs : List Nat) : Nat := bs.foldr (fun b acc => acc * 256 + b) 0

/-- `doubleSha256` as a number. -/
def doubleSha256 (data : List Nat) : Nat := leNat (sha256 (sha256 data))

/-- `computeHash`: 32 puzzle bytes then the 8 nonce bytes. -/
def computeHash (nonceB puzzle : List Nat) : Except String Nat :=
  if puzzle.length < 32 then .error "Puzzle data too short - need at least 32 bytes"
  else .ok (doubleSha256 (puzzle.take 32 ++ nonceB))

def MAX_SAFE_INTEGER : Nat := 9007199254740991

/-- The brute-force nonce search of `solvePuzzle` (fuel counts the remaining
candidate nonces; the source tries `0 .. MAX_SAFE_INTEGER` then throws). -/
def searchNonce (puzzle : List Nat) (target : Int) : Nat → Nat → Except String Nat
  | 0, _ => .error "Could not find solution within safe integer range"
  | fuel + 1, nonce =>
    match computeHash (numberToInt8Array nonce) puzzle with
    | .error e => .error e
    | .ok h => if (h : Int) < target then .ok nonce else searchNonce puzzle target fuel (nonce + 1)

def solvePuzzleNonce (puzzle : List Nat) : Except String Nat := do
  let target ← calculateTarget puzzle
  searchNonce puzzle target (MAX_SAFE_INTEGER + 1) 0

/-- `solvePuzzle`: base64 of the 8 little-endian bytes of the found nonce. -/
def solvePuzzle (puzzle : List Nat) : Except String String :=
  (solvePuzzleNonce puzzle).map (fun n => base64EncodeBytes (numberToInt8Array n))

/-- `puzzles.map(solvePuzzle)` under `Promise.all`: solved independently, the
first failure propagating, output order mirroring input order. -/
def solveAll : List PuzzleData → Except String (List CaptchaSolutionPair)
  | [] => .ok []
  | pd :: rest =>
    match solvePuzzle pd.puzzle with
    | .error e => .error e
    | .ok s =>
      match solveAll rest with
      | .error e => .error e
      | .ok others => .ok (CaptchaSolutionPair.mk pd.jwt s :: others)

/-- The `{token, solution}` JSON object of one solved puzzle. -/
def solJson (jwt solution : String) : Json :=
  Json.obj [("jwt", Json.str jwt), ("solution", Json.str solution)]

/-- `JSON.stringify` the solution array and base64 it. -/
def encodeSolutions (solutions : List CaptchaSolutionPair) : String :=
  base64EncodeBytes (utf8Encode (jsonStringify (Json.arr (solutions.map (fun p =>
    solJson p.jwt p.solution)))))

/-- `solveCaptcha` before its catch-all wrapper. -/
def solveCaptchaCore (puzzleHeader : String) : Except String String :=
  match parsePuzzle puzzleHeader with
  | .error e => .error e
  | .ok puzzles =>
    if puzzles.length = 0 then .error "Empty puzzle"
    else
      match solveAll puzzles with
      | .error e => .error e
      | .ok solutions => .ok (encodeSolutions solutions)

/-- `solveCaptcha`: wraps any failure in `Failed to solve CAPTCHA: …`. -/
def solveCaptcha (puzzleHeader : String) : Except String String :=
  match solveCaptchaCore puzzleHeader with
  | .ok s => .ok s
  | .error e => .error ("Failed to solve CAPTCHA: " ++ e)

/-- One `every` step of `validateSolutionFormat`; `none` models the JS
`TypeError` thrown by `null.jwt` (caught by the surrounding `try`). -/
def checkSolutionItem : Json → Option Bool
  | .null => none
  | .obj kvs =>
    some (match kvs.lookup "jwt", kvs.lookup "solution" with
      | some (.str _), some (.str _) => true
      | _, _ => false)
  | .arr _ => some false
  | _ => some false

def everyCheck : List Json → Option Bool
  | [] => some true
  | it :: rest =>
    match checkSolutionItem it with
    | none => none
    | some false => some false
    | some true => everyCheck rest

/-- `validateSolutionFormat`. -/
def validateSolutionFormat (solution : String) : Bool :=
  match jsonParse (utf8DecodeStr (base64DecodeForgiving solution)) with
  | some (.arr items) =>
    match everyCheck items with
    | some b => b
    | none => false
  | _ => false

instance {ε α : Type} [DecidableEq ε] [DecidableEq α] : DecidableEq (Except ε α)
  | .ok a, .ok b =>
    if h : a = b then .isTrue (by rw [h]) else .isFalse (by intro hx; cases hx; exact h rfl)
  | .ok _, .error _ => .isFalse (by intro hx; cases hx)
  | .error _, .ok _ => .isFalse (by intro hx; cases hx)
  | .error a, .error b =>
    if h : a = b then .isTrue (by rw [h]) else .isFalse (by intro hx; cases hx; exact h rfl)

/-! ### Claims C1 and C2 -/

/-- The proof-of-work inequality at a given nonce. -/
def hashBelowTarget (puzzle : List Nat) (target : Int) (nonce : Nat) : Prop :=
  (doubleSha256 (puzzle.take 32 ++ numberToInt8Array nonce) : Int) < target

instance (puzzle : List Nat) (target : Int) (nonce : Nat) :
    Decidable (hashBelowTarget puzzle target nonce) := by
  unfold hashBelowTarget
  infer_instance

theorem computeHash_eq {puzzle : List Nat} (hlen : 32 ≤ puzzle.length) (nb : List Nat) :
    computeHash nb puzzle = .ok (doubleSha256 (puzzle.take 32 ++ nb)) := by
  rw [computeHash, if_neg (by omega)]

theorem searchNonce_sound {puzzle : List Nat} {target : Int} (hlen : 32 ≤ puzzle.length) :
    ∀ fuel start n, searchNonce puzzle target fuel start = .ok n →
      start ≤ n ∧ hashBelowTarget puzzle target n ∧
        ∀ m, start ≤ m → m < n → ¬hashBelowTarget puzzle target m := by
  intro fuel
  induction fuel with
  | zero => intro start n h; exact absurd h (by rw [searchNonce]; intro hx; cases hx)
  | succ fuel ih =>
    intro start n h
    rw [searchNonce, computeHash_eq hlen] at h
    replace h : (if (↑(doubleSha256 (List.take 32 puzzle ++ numberToInt8Array start)) : Int) <
        target then Except.ok start else searchNonce puzzle target fuel (start + 1)) =
        Except.ok n := h
    by_cases hb : (↑(doubleSha256 (List.take 32 puzzle ++ numberToInt8Array start)) : Int) < target
    · rw [if_pos hb] at h
      cases h
      exact ⟨le_refl _, hb, fun m h1 h2 => absurd (lt_of_le_of_lt h1 h2) (lt_irrefl _)⟩
    · rw [if_neg hb] at h
      obtain ⟨h1, h2, h3⟩ := ih (start + 1) n h
      refine ⟨by omega, h2, fun m hm1 hm2 => ?_⟩
      rcases Nat.eq_or_lt_of_le hm1 with rfl | hlt
      · exact hb
      · exact h3 m hlt hm2

theorem searchNonce_complete {puzzle : List Nat} {target : Int} (hlen : 32 ≤ puzzle.length) :
    ∀ fuel start w, hashBelowTarget puzzle target w → start ≤ w → w < start + fuel →
      ∃ n, start ≤ n ∧ n ≤ w ∧ searchNonce puzzle target fuel start = .ok n := by
  intro fuel
  induction fuel with
  | zero => intro start w _ h1 h2; omega
  | succ fuel ih =>
    intro start w hw h1 h2
    by_cases hb : (↑(doubleSha256 (List.take 32 puzzle ++ numberToInt8Array start)) : Int) < target
    · refine ⟨start, le_refl _, h1, ?_⟩
      rw [searchNonce, computeHash_eq hlen]
      show (if (↑(doubleSha256 (List.take 32 puzzle ++ numberToInt8Array start)) : Int) <
        target then Except.ok start else searchNonce puzzle target fuel (start + 1)) =
        Except.ok start
      rw [if_pos hb]
    · have hne : start ≠ w := fun he => hb (he ▸ hw)
      obtain ⟨n, hn1, hn2, hn3⟩ := ih (start + 1) w hw (by omega) (by omega)
      refine ⟨n, by omega, hn2, ?_⟩
      rw [searchNonce, computeHash_eq hlen]
      show (if (↑(doubleSha256 (List.take 32 puzzle ++ numberToInt8Array start)) : Int) <
        target then Except.ok start else searchNonce puzzle target fuel (start + 1)) =
        Except.ok n
      rw [if_neg hb]
      exact hn3

theorem solvePuzzleNonce_eq {puzzle : List Nat} {target : Int}
    (htgt : calculateTarget puzzle = .ok target) :
    solvePuzzleNonce puzzle = searchNonce puzzle target (MAX_SAFE_INTEGER + 1) 0 := by
  unfold solvePuzzleNonce
  rw [htgt]
  rfl

theorem searchNonce_nonpos {puzzle : List Nat} {target : Int}
    (hlen : 32 ≤ puzzle.length) (ht : target ≤ 0) :
    ∀ fuel start, searchNonce puzzle target fuel start =
      .error "Could not find solution within safe integer range" := by
  intro fuel
  induction fuel with
  | zero => intro start; rfl
  | succ fuel ih =>
    intro start
    rw [searchNonce, computeHash_eq hlen]
    show (if (↑(doubleSha256 (List.take 32 puzzle ++ numberToInt8Array start)) : Int) <
      target then Except.ok start else searchNonce puzzle target fuel (start + 1)) = _
    rw [if_neg (by
      have : (0 : Int) ≤ ↑(doubleSha256 (List.take 32 puzzle ++ numberToInt8Array start)) :=
        Int.natCast_nonneg _
      omega)]
    exact ih (start + 1)

/-- C1 (amended): for a payload of length ≥ 32 whose target is `target`,
whenever `solve` returns a nonce it is the least one whose double SHA-256
hash (read little-endian) is below the target, and the returned credential is
its 8-byte little-endian base64; whenever some nonce within the safety
ceiling satisfies the inequality, `solve` does return one (no larger than
it); and re-running on the same payload gives the same nonce (the embedding
is a pure function, so determinism is the stated injectivity).  The original
claim also asserted a return for payloads whose target no nonce can beat,
which `c1_unsolvable_counterexample` refutes. -/
theorem c1_solve_least_nonce (puzzle : List Nat) (target : Int)
    (hlen : 32 ≤ puzzle.length) (htgt : calculateTarget puzzle = .ok target) :
    (∀ n, solvePuzzleNonce puzzle = .ok n →
      hashBelowTarget puzzle target n ∧ (∀ m < n, ¬hashBelowTarget puzzle target m) ∧
      solvePuzzle puzzle = .ok (base64EncodeBytes (numberToInt8Array n))) ∧
    (∀ w, w ≤ MAX_SAFE_INTEGER → hashBelowTarget puzzle target w →
      ∃ n, n ≤ w ∧ solvePuzzleNonce puzzle = .ok n) ∧
    (∀ n₁ n₂, solvePuzzleNonce puzzle = .ok n₁ → solvePuzzleNonce puzzle = .ok n₂ →
      n₁ = n₂) := by
  have heq := solvePuzzleNonce_eq htgt
  refine ⟨?_, ?_, ?_⟩
  · intro n hok
    have hok' := hok
    rw [heq] at hok'
    obtain ⟨-, hb, hall⟩ := searchNonce_sound hlen _ 0 n hok'
    refine ⟨hb, fun m hm => hall m (Nat.zero_le m) hm, ?_⟩
    unfold solvePuzzle
    rw [hok]
    rfl
  · intro w hw hbelow
    obtain ⟨n, -, hn2, hn3⟩ :=
      searchNonce_complete hlen (MAX_SAFE_INTEGER + 1) 0 w hbelow (Nat.zero_le w) (by omega)
    exact ⟨n, hn2, heq ▸ hn3⟩
  · intro n₁ n₂ h1 h2
    rw [h1] at h2
    cases h2
    rfl

/-- A 32-byte payload whose byte 13 (signed 35) makes the target `2 ^ 256`,
so nonce 0 already satisfies the inequality. -/
def c1WitnessPayload : List Nat :=
  [0, 0, 0, 0, 0, 0, 0, 0, 0, 0, 0, 0, 0, 35, 1, 0,
   0, 0, 0, 0, 0, 0, 0, 0, 0, 0, 0, 0, 0, 0, 0, 0]

set_option maxRecDepth 100000 in
/-- Witness for C1: on `c1WitnessPayload` the solver returns nonce 0 and the
credential `AAAAAAAAAAA=`; the hypotheses of `c1_solve_least_nonce` hold by
evaluation. -/
theorem c1_solve_least_nonce_witness :
    hashBelowTarget c1WitnessPayload (2 ^ 256) 0 ∧
    (∀ m < 0, ¬hashBelowTarget c1WitnessPayload (2 ^ 256) m) ∧
    solvePuzzle c1WitnessPayload = .ok "AAAAAAAAAAA=" := by
  have h := (c1_solve_least_nonce c1WitnessPayload (2 ^ 256) (by decide) (by decide)).1 0
    (by decide)
  exact ⟨h.1, h.2.1, by rw [h.2.2]; decide⟩

/-- A 32-byte payload whose byte 14 is 0, making the target 0: no hash is
below it. -/
def c1ZeroTargetPayload : List Nat := List.replicate 32 0

/-- Counterexample to C1 as stated: this payload has length ≥ 32, yet `solve`
does not return any nonce — it exhausts the safety ceiling and throws,
because its target is 0 and the double hash, a natural number, is never
below it. -/
theorem c1_unsolvable_counterexample :
    32 ≤ c1ZeroTargetPayload.length ∧
    solvePuzzle c1ZeroTargetPayload =
      .error "Could not find solution within safe integer range" := by
  have hlen : 32 ≤ c1ZeroTargetPayload.length := by decide
  have htgt : calculateTarget c1ZeroTargetPayload = .ok 0 := by decide
  refine ⟨hlen, ?_⟩
  unfold solvePuzzle
  rw [solvePuzzleNonce_eq htgt, searchNonce_nonpos hlen (le_refl 0)]
  rfl

/-- C2 (amended): for payloads whose bytes at offsets 13 and 14 are at most
127 (so their signed reading is themselves) and whose byte 13 is at least 4
(so the hand-rolled power loop computes a true power of two), the target is
`payload[14] * 2 ^ (8 * (payload[13] - 3))`; in particular the
`payload[13] = 5, payload[14] = 10` fixture gives 655360.  Outside that
range the loop yields `payload[14] * 2` instead
(`c2_target_counterexample`). -/
theorem c2_target_formula :
    (∀ p : List Nat, 15 ≤ p.length →
      4 ≤ p.getD 13 0 → p.getD 13 0 ≤ 127 → p.getD 14 0 ≤ 127 →
      calculateTarget p = .ok ((p.getD 14 0 : Int) * 2 ^ (8 * (p.getD 13 0 - 3)))) ∧
    (∀ p : List Nat, 15 ≤ p.length → p.getD 13 0 = 5 → p.getD 14 0 = 10 →
      calculateTarget p = .ok 655360) := by
  have main : ∀ p : List Nat, 15 ≤ p.length →
      4 ≤ p.getD 13 0 → p.getD 13 0 ≤ 127 → p.getD 14 0 ≤ 127 →
      calculateTarget p = .ok ((p.getD 14 0 : Int) * 2 ^ (8 * (p.getD 13 0 - 3))) := by
    intro p hlen h4 h13 h14
    unfold calculateTarget toSigned
    rw [if_neg (by omega), if_pos (show p.getD 13 0 < 128 by omega),
      if_pos (show p.getD 14 0 < 128 by omega),
      if_neg (show ¬8 * ((p.getD 13 0 : Int) - 3) ≤ 1 by
        have : (4 : Int) ≤ (p.getD 13 0 : Int) := by exact_mod_cast h4
        omega)]
    rw [show (8 * ((p.getD 13 0 : Int) - 3)).toNat = 8 * (p.getD 13 0 - 3) by omega]
  refine ⟨main, fun p hlen h13 h14 => ?_⟩
  rw [main p hlen (by omega) (by omega) (by omega), h13, h14]
  decide

/-- The fixture payload: 15 bytes with `payload[13] = 5`, `payload[14] = 10`. -/
def c2FixturePayload : List Nat := [0, 0, 0, 0, 0, 0, 0, 0, 0, 0, 0, 0, 0, 5, 10]

/-- Witness for C2 at the fixture payload. -/
theorem c2_target_formula_witness :
    calculateTarget c2FixturePayload = .ok 655360 ∧
    calculateTarget c2FixturePayload =
      .ok ((c2FixturePayload.getD 14 0 : Int) *
        2 ^ (8 * (c2FixturePayload.getD 13 0 - 3))) :=
  ⟨c2_target_formula.2 c2FixturePayload (by decide) (by decide) (by decide),
   c2_target_formula.1 c2FixturePayload (by decide) (by decide) (by decide) (by decide)⟩

/-- A 15-byte payload with `payload[13] = 3`: the claimed formula gives
`1 * 2 ^ 0 = 1`, the code gives 2. -/
def c2EdgePayload : List Nat := [0, 0, 0, 0, 0, 0, 0, 0, 0, 0, 0, 0, 0, 3, 1]

/-- Counterexample to C2 as stated: at `payload[13] = 3, payload[14] = 1` the
code's target is 2, not the `payload[14] * 2 ^ (8 * (payload[13] - 3)) = 1`
the claim asserts for every payload of length ≥ 15. -/
theorem c2_target_counterexample :
    15 ≤ c2EdgePayload.length ∧
    c2EdgePayload.getD 13 0 = 3 ∧ c2EdgePayload.getD 14 0 = 1 ∧
    calculateTarget c2EdgePayload = .ok 2 ∧
    ((c2EdgePayload.getD 14 0 : Int) * 2 ^ (8 * (c2EdgePayload.getD 13 0 - 3)) = 1) ∧
    (2 : Int) ≠ 1 := by
  refine ⟨by decide, by decide, by decide, by decide, by decide, by decide⟩

/-! ### Claim C8 -/

def exceptOk {ε α : Type} : Except ε α → Bool
  | .ok _ => true
  | .error _ => false

/-- The decode phase of `solveCaptcha`: `parsePuzzle` plus the
`puzzles.length === 0` check that makes a zero-token credential an error. -/
def decodeChallenge (puzzleHeader : String) : Except String (List PuzzleData) :=
  match parsePuzzle puzzleHeader with
  | .error e => .error e
  | .ok ps => if ps.length = 0 then .error "Empty puzzle" else .ok ps

/-- The claim's per-token failure conditions, stated structurally: the token
lacks the three-segment structure, or its embedded payload segment is empty,
or that segment does not decode to JSON, or the decoded payload has no
non-empty string `puzzle` field. -/
def tokenBad (jwt : String) : Bool :=
  if (jsSplitOnChar '.' (jsTrim jwt)).length ≠ 3 then true
  else if (jsSplitOnChar '.' (jsTrim jwt)).getD 1 "" = "" then true
  else
    match jsonParse (utf8DecodeStr (base64DecodeForgiving
        ((jsSplitOnChar '.' (jsTrim jwt)).getD 1 ""))) with
    | none => true
    | some payload =>
      match jsonGet payload "puzzle" with
      | some (.str s) => s == ""
      | some _ => true
      | none => true

theorem parseToken_ok_iff (t : String) : exceptOk (parseToken t) = true ↔ tokenBad t = false := by
  unfold parseToken tokenBad
  by_cases h1 : (jsSplitOnChar '.' (jsTrim t)).length ≠ 3
  · rw [if_pos h1, if_pos h1]
    simp [exceptOk]
  · rw [if_neg h1, if_neg h1]
    by_cases h2 : (jsSplitOnChar '.' (jsTrim t)).getD 1 "" = ""
    · rw [if_pos h2, if_pos h2]
      simp [exceptOk]
    · rw [if_neg h2, if_neg h2]
      rcases hj : jsonParse (utf8DecodeStr (base64DecodeForgiving
          ((jsSplitOnChar '.' (jsTrim t)).getD 1 ""))) with - | payload
      · simp [hj, exceptOk]
      · rcases hg : jsonGet payload "puzzle" with - | v
        · simp [hj, hg, exceptOk]
        · cases v <;> simp [hj, hg, exceptOk] <;>
            first
            | rfl
            | (rename_i sv
               by_cases hs : sv = "" <;> simp [hs, exceptOk])

theorem parseToken_jwt {t : String} {pd : PuzzleData} (h : parseToken t = .ok pd) :
    pd.jwt = jsTrim t := by
  unfold parseToken at h
  by_cases h1 : (jsSplitOnChar '.' (jsTrim t)).length ≠ 3
  · rw [if_pos h1] at h; cases h
  · rw [if_neg h1] at h
    by_cases h2 : (jsSplitOnChar '.' (jsTrim t)).getD 1 "" = ""
    · rw [if_pos h2] at h; cases h
    · rw [if_neg h2] at h
      rcases hj : jsonParse (utf8DecodeStr (base64DecodeForgiving
          ((jsSplitOnChar '.' (jsTrim t)).getD 1 ""))) with - | payload
      · simp only [hj] at h
        exact Except.noConfusion h
      · simp only [hj] at h
        rcases hg : jsonGet payload "puzzle" with - | v
        · simp only [hg] at h
          exact Except.noConfusion h
        · simp only [hg] at h
          cases v
          all_goals dsimp only at h
          all_goals
            first
            | exact Except.noConfusion h
            | (rename_i sv
               by_cases hs : sv = ""
               · rw [if_pos hs] at h
                 exact Except.noConfusion h
               · rw [if_neg hs] at h
                 cases h
                 rfl)

theorem mapTokens_ok_iff : ∀ ts : List String,
    exceptOk (mapTokens ts) = true ↔ ∀ t ∈ ts, tokenBad t = false := by
  intro ts
  induction ts with
  | nil => simp [mapTokens, exceptOk]
  | cons t ts ih =>
    rw [mapTokens]
    rcases hp : parseToken t with e | pd
    · have hbad : ¬tokenBad t = false := by
        intro hx
        have := (parseToken_ok_iff t).mpr hx
        rw [hp] at this
        cases this
      simp [exceptOk, hbad]
    · have hgood : tokenBad t = false := (parseToken_ok_iff t).mp (by rw [hp]; rfl)
      rcases hm : mapTokens ts with e2 | rest
      · rw [hm] at ih
        simp only [exceptOk] at ih ⊢
        simp [hgood, ← ih]
      · rw [hm] at ih
        simp only [exceptOk] at ih ⊢
        simp [hgood, ← ih]

theorem mapTokens_shape : ∀ (ts : List String) (ps : List PuzzleData),
    mapTokens ts = .ok ps → List.map PuzzleData.jwt ps = List.map (fun t => jsTrim t) ts := by
  intro ts
  induction ts with
  | nil => intro ps h; cases h; rfl
  | cons t ts ih =>
    intro ps h
    rw [mapTokens] at h
    rcases hp : parseToken t with e | pd
    · rw [hp] at h; cases h
    · rw [hp] at h
      rcases hm : mapTokens ts with e2 | rest
      · rw [hm] at h; cases h
      · rw [hm] at h
        cases h
        simp only [List.map_cons]
        rw [parseToken_jwt hp, ih rest hm]

/-- C8: decoding a challenge credential fails exactly when the credential
decodes to zero non-blank tokens or some token is malformed (wrong segment
count, missing/undecodable embedded payload, or missing/invalid `puzzle`
field); the outer base64 decode itself is total in Node, so "outer decoding
fails" never fires.  On success there is exactly one descriptor per
non-blank token, keyed by that (trimmed) token. -/
theorem c8_decode_error_conditions (h : String) :
    (exceptOk (decodeChallenge h) = true ↔
      (challengeTokens h ≠ [] ∧ ∀ t ∈ challengeTokens h, tokenBad t = false)) ∧
    (∀ ps, decodeChallenge h = .ok ps →
      List.map PuzzleData.jwt ps = List.map (fun t => jsTrim t) (challengeTokens h)) := by
  rcases hm : mapTokens (challengeTokens h) with e | ps
  · have hd : decodeChallenge h = .error e := by
      unfold decodeChallenge parsePuzzle
      rw [hm]
    rw [hd]
    constructor
    · have : ¬∀ t ∈ challengeTokens h, tokenBad t = false := by
        intro hall
        have := (mapTokens_ok_iff (challengeTokens h)).mpr hall
        rw [hm] at this
        cases this
      simp [exceptOk, this]
    · intro ps hps
      cases hps
  · have hd : decodeChallenge h =
        if ps.length = 0 then .error "Empty puzzle" else .ok ps := by
      unfold decodeChallenge parsePuzzle
      rw [hm]
    rw [hd]
    have hlen : ps.length = (challengeTokens h).length := by
      have := mapTokens_shape (challengeTokens h) ps hm
      have h1 := congrArg List.length this
      simpa using h1
    have hall : ∀ t ∈ challengeTokens h, tokenBad t = false :=
      (mapTokens_ok_iff (challengeTokens h)).mp (by rw [hm]; rfl)
    by_cases hz : ps.length = 0
    · rw [if_pos hz]
      constructor
      · have hzt : (challengeTokens h).length = 0 := by omega
        have : challengeTokens h = [] := List.length_eq_zero.mp hzt
        simp [exceptOk, this]
      · intro ps' hps'
        cases hps'
    · rw [if_neg hz]
      constructor
      · have : challengeTokens h ≠ [] := by
          intro he
          rw [he] at hlen
          simp at hlen
          exact hz (by simp [hlen])
        exact ⟨fun _ => ⟨this, hall⟩, fun _ => rfl⟩
      · intro ps' hps'
        cases hps'
        exact mapTokens_shape (challengeTokens h) ps hm

/-- The concrete solvable challenge credential used by several witnesses:
base64 of `h.<base64 of {"puzzle":"<base64 of c1WitnessPayload>"}>.s`. -/
def cHeader : String :=
  "aC5leUp3ZFhwNmJHVWlPaUpCUVVGQlFVRkJRVUZCUVVGQlFVRkJRVU5OUWtGQlFVRkJRVUZCUVVGQlFVRkJRVUZCUVVGQlFVRkJQU0o5LnM="

set_option maxRecDepth 100000 in
set_option maxHeartbeats 2000000 in
/-- Witness for C8: on the concrete credential the decode succeeds, its
token list is the single embedded JWT, no token is malformed, and the
descriptor is keyed by that token. -/
theorem c8_decode_error_conditions_witness :
    exceptOk (decodeChallenge cHeader) = true ∧
    (∀ ps, decodeChallenge cHeader = .ok ps →
      List.map PuzzleData.jwt ps = List.map (fun t => jsTrim t) (challengeTokens cHeader)) :=
  ⟨(c8_decode_error_conditions cHeader).1.mpr ⟨by decide, by decide⟩,
   (c8_decode_error_conditions cHeader).2⟩

/-! ### Claim C10: the produced solution credential validates -/

theorem hexVal_hexDigitChar : ∀ n < 16, hexVal (hexDigitChar n) = some n := by decide

theorem mk_toList (s : String) : String.mk s.toList = s := by cases s; rfl

/-- The parser undoes `JSON.stringify`'s string escaping. -/
theorem parseString_escape : ∀ (cs rest : List Char),
    parseJsonString (escJsonList cs ++ '"' :: rest) = some (cs, rest)
  | [], rest => by
    rw [escJsonList, List.nil_append]
    simp [parseJsonString]
  | c :: cs, rest => by
    have ih := parseString_escape cs rest
    show parseJsonString ((escCharJson c ++ escJsonList cs) ++ '"' :: rest) = _
    rw [List.append_assoc]
    by_cases h1 : c = '"'
    · subst h1
      rw [show escCharJson '"' = ['\\', '"'] from rfl]
      simp [parseJsonString, parseJsonEscape, ih]
    · by_cases h2 : c = '\\'
      · subst h2
        rw [show escCharJson '\\' = ['\\', '\\'] from rfl]
        simp [parseJsonString, parseJsonEscape, ih]
      · by_cases h3 : c.toNat = 8
        · have hc : Char.ofNat 8 = c := by rw [← h3, Char.ofNat_toNat]
          rw [show escCharJson c = ['\\', 'b'] from by
            unfold escCharJson
            rw [if_neg h1, if_neg h2, if_pos h3]]
          simp [parseJsonString, parseJsonEscape, ih]
          exact hc
        · by_cases h4 : c.toNat = 9
          · have hc : '\t' = c := by
              rw [show '\t' = Char.ofNat 9 from rfl, ← h4, Char.ofNat_toNat]
            rw [show escCharJson c = ['\\', 't'] from by
              unfold escCharJson
              rw [if_neg h1, if_neg h2, if_neg h3, if_pos h4]]
            simp [parseJsonString, parseJsonEscape, ih]
            exact hc
          · by_cases h5 : c.toNat = 10
            · have hc : '\n' = c := by
                rw [show '\n' = Char.ofNat 10 from rfl, ← h5, Char.ofNat_toNat]
              rw [show escCharJson c = ['\\', 'n'] from by
                unfold escCharJson
                rw [if_neg h1, if_neg h2, if_neg h3, if_neg h4, if_pos h5]]
              simp [parseJsonString, parseJsonEscape, ih]
              exact hc
            · by_cases h6 : c.toNat = 12
              · have hc : Char.ofNat 12 = c := by rw [← h6, Char.ofNat_toNat]
                rw [show escCharJson c = ['\\', 'f'] from by
                  unfold escCharJson
                  rw [if_neg h1, if_neg h2, if_neg h3, if_neg h4, if_neg h5, if_pos h6]]
                simp [parseJsonString, parseJsonEscape, ih]
                exact hc
              · by_cases h7 : c.toNat = 13
                · have hc : Char.ofNat 13 = c := by rw [← h7, Char.ofNat_toNat]
                  rw [show escCharJson c = ['\\', 'r'] from by
                    unfold escCharJson
                    rw [if_neg h1, if_neg h2, if_neg h3, if_neg h4, if_neg h5, if_neg h6,
                      if_pos h7]]
                  simp [parseJsonString, parseJsonEscape, ih]
                  exact hc
                · by_cases h8 : c.toNat < 32
                  · have e1 := hexVal_hexDigitChar (c.toNat / 16) (by omega)
                    have e2 := hexVal_hexDigitChar (c.toNat % 16) (by omega)
                    have hc : mkCharOr (0 * 4096 + 0 * 256 + c.toNat / 16 * 16 + c.toNat % 16)
                        = c := by
                      rw [show 0 * 4096 + 0 * 256 + c.toNat / 16 * 16 + c.toNat % 16 = c.toNat
                        by omega, mkCharOr_toNat]
                    rw [show escCharJson c = ['\\', 'u', '0', '0', hexDigitChar (c.toNat / 16),
                        hexDigitChar (c.toNat % 16)] from by
                      unfold escCharJson
                      rw [if_neg h1, if_neg h2, if_neg h3, if_neg h4, if_neg h5, if_neg h6,
                        if_neg h7, if_pos h8]]
                    simp [parseJsonString, parseJsonEscape, parseJsonHex1, parseJsonHex2,
                      parseJsonHex3, parseJsonHex4, e1, e2, ih,
                      show hexVal '0' = some 0 from rfl]
                    rw [show c.toNat / 16 * 16 + c.toNat % 16 = c.toNat by omega,
                      mkCharOr_toNat]
                  · rw [show escCharJson c = [c] from by
                      unfold escCharJson
                      rw [if_neg h1, if_neg h2, if_neg h3, if_neg h4, if_neg h5, if_neg h6,
                        if_neg h7, if_neg h8]]
                    rw [List.singleton_append, parseJsonString, if_neg h1, if_neg h2,
                      if_neg h8, ih]
                    rfl

theorem parseValue_strVal (g : Nat) (s : String) (rest : List Char) :
    parseJsonValue (g + 1) ('"' :: (escJsonList s.data ++ '"' :: rest)) =
      some (Json.str s, rest) := by
  rw [parseJsonValue]
  simp [skipJsonWs, jsonWsChar, parseString_escape]

theorem toList_append (s t : String) : (s ++ t).data = s.data ++ t.data :=
  String.data_append s t

theorem jsonQuote_data (s : String) :
    (jsonQuote s).data = '"' :: (escJsonList s.data ++ ['"']) := rfl

theorem solJson_stringify_data (a b : String) :
    (jsonStringify (solJson a b)).data =
      ['\x7b', '"', 'j', 'w', 't', '"', ':', '"'] ++ (escJsonList a.data ++
        (['"', ',', '"', 's', 'o', 'l', 'u', 't', 'i', 'o', 'n', '"', ':', '"'] ++
          (escJsonList b.data ++ ['"', '\x7d']))) := by
  show (("\x7b" ++ ((((jsonQuote "jwt" ++ ":") ++ jsonQuote a) ++ ",") ++
    ((jsonQuote "solution" ++ ":") ++ jsonQuote b))) ++ "\x7d").data = _
  simp only [toList_append, jsonQuote_data,
    show ("\x7b" : String).data = ['\x7b'] from rfl,
    show ("\x7d" : String).data = ['\x7d'] from rfl,
    show (":" : String).data = [':'] from rfl,
    show ("," : String).data = [','] from rfl,
    show escJsonList ("jwt".data) = ['j', 'w', 't'] from rfl,
    show escJsonList ("solution".data) = ['s', 'o', 'l', 'u', 't', 'i', 'o', 'n'] from rfl]
  simp [List.append_assoc]

theorem parseMembers_sol (f : Nat) (a b : String) (rest : List Char) :
    parseJsonMembers ((f + 4) + 1) ('"' :: 'j' :: 'w' :: 't' :: '"' :: ':' :: '"' ::
      (escJsonList a.data ++ '"' :: ',' :: '"' :: 's' :: 'o' :: 'l' :: 'u' :: 't' :: 'i' ::
        'o' :: 'n' :: '"' :: ':' :: '"' :: (escJsonList b.data ++ '"' :: '\x7d' :: rest))) =
      some ([("jwt", Json.str a), ("solution", Json.str b)], rest) := by
  rw [parseJsonMembers]
  simp [skipJsonWs, jsonWsChar, parseJsonString, parseString_escape]
  rw [show f + 4 = (f + 3) + 1 from rfl, parseValue_strVal]
  simp [skipJsonWs, jsonWsChar]
  rw [parseJsonMembers]
  simp [skipJsonWs, jsonWsChar, parseJsonString, parseString_escape]
  rw [show f + 3 = (f + 2) + 1 from rfl, parseValue_strVal]
  simp [skipJsonWs, jsonWsChar]

theorem parseValue_solObj (f : Nat) (a b : String) (rest : List Char) :
    parseJsonValue (f + 6) ((jsonStringify (solJson a b)).data ++ rest) =
      some (solJson a b, rest) := by
  rw [solJson_stringify_data]
  simp only [List.append_assoc, List.cons_append, List.nil_append]
  rw [show f + 6 = (f + 5) + 1 from rfl, parseJsonValue]
  simp [skipJsonWs, jsonWsChar]
  rw [show f + 5 = (f + 4) + 1 from rfl]
  exact ⟨[("jwt", Json.str a), ("solution", Json.str b)], parseMembers_sol f a b rest, rfl⟩


theorem parseElems_sols : ∀ (items : List (String × String)) (f : Nat) (rest : List Char),
    items ≠ [] →
    parseJsonElems (f + 7 * items.length)
      ((jsonStringifyElems (items.map (fun p => solJson p.1 p.2))).data ++ ']' :: rest) =
      some (items.map (fun p => solJson p.1 p.2), rest)
  | [], _, _, hne => absurd rfl hne
  | [(a, b)], f, rest, _ => by
    show parseJsonElems (f + 7 * 1) ((jsonStringify (solJson a b)).data ++ ']' :: rest) = _
    rw [show f + 7 * 1 = (f + 6) + 1 from rfl, parseJsonElems, parseValue_solObj]
    simp [skipJsonWs, jsonWsChar]
  | (a, b) :: x :: xs, f, rest, _ => by
    have ih := parseElems_sols (x :: xs) (f + 6) rest (by simp)
    show parseJsonElems (f + 7 * ((x :: xs).length + 1))
      ((jsonStringify (solJson a b) ++ "," ++
        jsonStringifyElems ((x :: xs).map (fun p => solJson p.1 p.2))).data ++ ']' :: rest) = _
    rw [toList_append, toList_append]
    simp only [List.append_assoc, show ("," : String).data = [','] from rfl,
      List.cons_append, List.nil_append]
    rw [show f + 7 * ((x :: xs).length + 1) = (f + 7 * (x :: xs).length + 6) + 1 from by omega,
      parseJsonElems, parseValue_solObj]
    simp only [skipJsonWs, jsonWsChar]
    simp
    simp at ih
    rw [show f + 7 * (xs.length + 1) + 6 = f + 6 + 7 * (xs.length + 1) from by omega, ih]


theorem toList_eq_data (s : String) : s.toList = s.data := rfl

theorem elems_sols_head : ∀ (items : List (String × String)), items ≠ [] →
    ∃ t, (jsonStringifyElems (items.map (fun p => solJson p.1 p.2))).data = '\x7b' :: t
  | [], hne => absurd rfl hne
  | [(a, b)], _ => by
    show ∃ t, (jsonStringify (solJson a b)).data = '\x7b' :: t
    rw [solJson_stringify_data]
    simp only [List.cons_append]
    exact ⟨_, rfl⟩
  | (a, b) :: x :: xs, _ => by
    show ∃ t, (jsonStringify (solJson a b) ++ "," ++
      jsonStringifyElems ((x :: xs).map (fun p => solJson p.1 p.2))).data = '\x7b' :: t
    rw [toList_append, toList_append, solJson_stringify_data]
    simp only [List.append_assoc, List.cons_append]
    exact ⟨_, rfl⟩

theorem parseValue_solArr (items : List (String × String)) (f : Nat) (rest : List Char)
    (hne : items ≠ []) :
    parseJsonValue (f + 7 * items.length + 1)
      ((jsonStringify (Json.arr (items.map (fun p => solJson p.1 p.2)))).data ++ rest) =
      some (Json.arr (items.map (fun p => solJson p.1 p.2)), rest) := by
  obtain ⟨t, ht⟩ := elems_sols_head items hne
  show parseJsonValue (f + 7 * items.length + 1)
    (("[" ++ jsonStringifyElems (items.map (fun p => solJson p.1 p.2)) ++ "]").data ++ rest) = _
  rw [toList_append, toList_append]
  simp only [List.append_assoc, show ("[" : String).data = ['['] from rfl,
    show ("]" : String).data = [']'] from rfl, List.cons_append, List.nil_append]
  rw [parseJsonValue]
  have helems := parseElems_sols items f rest hne
  rw [ht] at helems
  rw [ht]
  simp only [List.cons_append] at helems
  simp [skipJsonWs, jsonWsChar, helems]


theorem solObj_len (a b : String) : 24 ≤ (jsonStringify (solJson a b)).length := by
  show 24 ≤ (jsonStringify (solJson a b)).data.length
  rw [solJson_stringify_data]
  simp [List.length_append]
  omega

theorem elems_sols_len : ∀ (items : List (String × String)), items ≠ [] →
    4 * items.length ≤ (jsonStringifyElems (items.map (fun p => solJson p.1 p.2))).length
  | [], hne => absurd rfl hne
  | [(a, b)], _ => by
    show 4 * [(a, b)].length ≤ (jsonStringify (solJson a b)).length
    have := solObj_len a b
    simp only [List.length_singleton]
    omega
  | (a, b) :: x :: xs, _ => by
    have ih := elems_sols_len (x :: xs) (by simp)
    have h1 := solObj_len a b
    have hc : ("," : String).length = 1 := rfl
    show 4 * ((x :: xs).length + 1) ≤ (jsonStringify (solJson a b) ++ "," ++
      jsonStringifyElems ((x :: xs).map (fun p => solJson p.1 p.2))).length
    rw [String.length_append, String.length_append]
    simp only [List.length_cons] at ih ⊢
    omega

theorem jsonParse_solutions (items : List (String × String)) (hne : items ≠ []) :
    jsonParse (jsonStringify (Json.arr (items.map (fun p => solJson p.1 p.2)))) =
      some (Json.arr (items.map (fun p => solJson p.1 p.2))) := by
  unfold jsonParse
  have harr : (jsonStringify (Json.arr (items.map (fun p => solJson p.1 p.2)))).data =
      '[' :: ((jsonStringifyElems (items.map (fun p => solJson p.1 p.2))).data ++ [']']) := by
    show ("[" ++ jsonStringifyElems (items.map (fun p => solJson p.1 p.2)) ++ "]").data = _
    rw [toList_append, toList_append]
    simp
  have hslen : (jsonStringify (Json.arr (items.map (fun p => solJson p.1 p.2)))).length =
      (jsonStringifyElems (items.map (fun p => solJson p.1 p.2))).length + 2 := by
    show (jsonStringify (Json.arr (items.map (fun p => solJson p.1 p.2)))).data.length =
      (jsonStringifyElems (items.map (fun p => solJson p.1 p.2))).data.length + 2
    rw [harr]
    simp
  have hel := elems_sols_len items hne
  rw [show 2 * (jsonStringify (Json.arr (items.map (fun p => solJson p.1 p.2)))).length + 2 =
    (2 * (jsonStringify (Json.arr (items.map (fun p => solJson p.1 p.2)))).length + 1 -
      7 * items.length) + 7 * items.length + 1 from by rw [hslen]; omega]
  have hparse := parseValue_solArr items
    (2 * (jsonStringify (Json.arr (items.map (fun p => solJson p.1 p.2)))).length + 1 -
      7 * items.length) [] hne
  rw [List.append_nil] at hparse
  rw [toList_eq_data, hparse]
  simp [skipJsonWs]

theorem everyCheck_sols : ∀ (sols : List CaptchaSolutionPair),
    everyCheck (sols.map (fun p => solJson p.jwt p.solution)) = some true
  | [] => rfl
  | p :: rest => by
    show everyCheck (solJson p.jwt p.solution :: _) = _
    simp [everyCheck, show checkSolutionItem (solJson p.jwt p.solution) = some true from rfl,
      everyCheck_sols rest]

theorem solveAll_length : ∀ (ps : List PuzzleData) (sols : List CaptchaSolutionPair),
    solveAll ps = .ok sols → sols.length = ps.length
  | [], sols, h => by cases h; rfl
  | pd :: rest, sols, h => by
    rw [solveAll] at h
    rcases h1 : solvePuzzle pd.puzzle with e | sol
    · rw [h1] at h; cases h
    · rw [h1] at h
      rcases h2 : solveAll rest with e | others
      · rw [h2] at h; cases h
      · rw [h2] at h
        cases h
        simp [solveAll_length rest others h2]

/-- C10: whenever `solveCaptcha` succeeds, its output passes
`validateSolutionFormat`: the credential base64-decodes to the UTF-8 of a
JSON array whose every element is an object with string `jwt` and
`solution` fields. -/
theorem c10_solution_format (h s : String) (hok : solveCaptcha h = .ok s) :
    validateSolutionFormat s = true := by
  have hcore : solveCaptchaCore h = .ok s := by
    unfold solveCaptcha at hok
    rcases hc : solveCaptchaCore h with e | s'
    · simp only [hc] at hok
      exact Except.noConfusion hok
    · simp only [hc, Except.ok.injEq] at hok
      rw [hok]
  unfold solveCaptchaCore at hcore
  rcases hp : parsePuzzle h with e | puzzles
  · simp only [hp] at hcore
    exact Except.noConfusion hcore
  · simp only [hp] at hcore
    by_cases hz : puzzles.length = 0
    · rw [if_pos hz] at hcore
      cases hcore
    · rw [if_neg hz] at hcore
      rcases hs2 : solveAll puzzles with e | sols
      · simp only [hs2] at hcore
        exact Except.noConfusion hcore
      · simp only [hs2, Except.ok.injEq] at hcore
        have hlen := solveAll_length puzzles sols hs2
        have hsne : sols ≠ [] := by
          intro he
          rw [he] at hlen
          simp at hlen
          exact hz hlen.symm
        rw [← hcore]
        unfold validateSolutionFormat encodeSolutions
        rw [base64_roundtrip _ (utf8Encode_bytes_lt _), utf8_roundtrip]
        have hmap : sols.map (fun p => solJson p.jwt p.solution) =
            (sols.map (fun p => (p.jwt, p.solution))).map (fun q => solJson q.1 q.2) := by
          rw [List.map_map]
          rfl
        rw [hmap, jsonParse_solutions (sols.map (fun p => (p.jwt, p.solution)))
          (by simpa using hsne)]
        simp [← hmap, everyCheck_sols sols]


def c10Cred : String :=
  "W3siand0IjoiaC5leUp3ZFhwNmJHVWlPaUpCUVVGQlFVRkJRVUZCUVVGQlFVRkJRVU5OUWtGQlFVRkJRVUZCUVVGQlFVRkJRVUZCUVVGQlFVRkJQU0o5LnMiLCJzb2x1dGlvbiI6IkFBQUFBQUFBQUFBPSJ9XQ=="

set_option maxRecDepth 100000 in
set_option maxHeartbeats 4000000 in
theorem c10_solution_format_witness : validateSolutionFormat c10Cred = true :=
  c10_solution_format cHeader c10Cred (by decide)


/-! ### `dbSchenkerClient.ts`: `fetchJson` with retries, cache and CAPTCHA flow

The client is stateful and effectful, so it is embedded as explicit state
passing.  An `Env` supplies the outside world: `server n` is the outcome of
the `n`-th `fetch` call the client performs (a response, or a rejection of
the fetch promise itself: Node rejects with `TypeError: fetch failed`), and
`rand n` is the `n`-th value drawn from `Math.random` (a rational in
`[0, 1)`, hypothesised where needed).  `Date.now()` is modelled as a single
per-call instant `now`; nothing in the embedded code depends on time
advancing inside one call.  Delays handed to `sleep` are logged in order in
`St.sleeps`; `St.sends` counts `fetch` calls and indexes `server`. -/

/-- A settled HTTP response, as the JS code observes it.  `puzzleHeader` is
the value of the `Captcha-Puzzle`-style header if one is present
(`headers.has`/`headers.get` over the three spellings), `contentTypeJson`
says whether `content-type` includes `application/json`, `bodyText` /
`bodyJson` are the results of `res.text()` / `res.json()` (`none` = the
promise rejects; a body can be read once, which the model accounts for at
its one double-read site), and `jsonErrMsg` is the rejection message of a
failed `res.json()`. -/
structure HttpResponse where
  status : Nat
  statusText : String
  puzzleHeader : Option String
  contentTypeJson : Bool
  bodyText : Option String
  bodyJson : Option Json
  jsonErrMsg : String

/-- One `fetch` call either settles with a response or rejects. -/
inductive HttpEvent where
  | ok (r : HttpResponse)
  | netFail

/-- The kinds of `Error` the client throws: `CaptchaBlockedError` (status
429, `url`, `hasCaptchaPuzzleHeader`), `CaptchaSolutionInvalidError`
(status 422, `url`), and plain `Error`, which may carry an attached
`apiError` payload. -/
inductive JsErrKind where
  | captchaBlocked (url : String) (hasPuzzle : Bool)
  | solutionInvalid (url : String)
  | generic (apiError : Option Json)

structure JsErr where
  kind : JsErrKind
  msg : String

structure Env where
  server : Nat → HttpEvent
  rand : Nat → ℚ

structure St where
  cache : List (String × Json × Nat)
  sends : Nat
  randIdx : Nat
  sleeps : List ℚ

inductive FetchResult where
  | ok (data : Json)
  | err (e : JsErr)

/-- Result rendered as a string, for stating concrete observations without a
decidable equality on `Json`. -/
def fetchResStr : FetchResult → String
  | .ok j => "ok:" ++ jsonStringify j
  | .err e => "err:" ++ e.msg

def CACHE_TTL_MS : Nat := 60 * 1000

def cacheGet : List (String × Json × Nat) → String → Option (Json × Nat)
  | [], _ => none
  | (k, d, t) :: rest, u => if k = u then some (d, t) else cacheGet rest u

def cacheDel : List (String × Json × Nat) → String → List (String × Json × Nat)
  | [], _ => []
  | (k, d, t) :: rest, u => if k = u then cacheDel rest u else (k, d, t) :: cacheDel rest u

def cacheSet : List (String × Json × Nat) → String → Json → Nat → List (String × Json × Nat)
  | [], u, d, t => [(u, d, t)]
  | (k, d0, t0) :: rest, u, d, t =>
      if k = u then (u, d, t) :: rest else (k, d0, t0) :: cacheSet rest u d t

/-- `Math.round` as the template literal renders the backoff delay:
`Math.round(x) = ⌊x + 1/2⌋`. -/
def jsRound (q : ℚ) : Int := ⌊q + 1 / 2⌋

def strTake200 (s : String) : String := ⟨s.toList.take 200⟩

/-- `errorText ? ` :: ${errorText.substring(0, 200)}` : ""` and the
`| Response:` variant. -/
def colonTail (errorText : String) : String :=
  if errorText = "" then "" else " :: " ++ strTake200 errorText
def responseTail (errorText : String) : String :=
  if errorText = "" then "" else " | Response: " ++ strTake200 errorText

/-- `let errorText = ""; try { errorText = await res.text() } catch {}`. -/
def errTextOf (r : HttpResponse) : String := r.bodyText.getD ""

def rateLimitMsg (url : String) (attempt retries : Nat) (delay : ℚ) (errorText : String) :
    String :=
  "HTTP 429 Too Many Requests (Rate Limited) | URL: " ++ url ++
    " | Attempt: " ++ toString (attempt + 1) ++ "/" ++ toString (retries + 1) ++
    " | Backoff delay: " ++ toString (jsRound delay) ++ "ms" ++ responseTail errorText

def httpErrMsg (status : Nat) (statusText url errorText : String) : String :=
  "HTTP " ++ toString status ++ " " ++ statusText ++ " for " ++ url ++ colonTail errorText

def noHeaderMsg (url : String) : String :=
  "Received HTTP 429 but could not extract Captcha-Puzzle header. URL: " ++ url

def solveFailMsg (inner url : String) : String :=
  "Failed to solve CAPTCHA puzzle: " ++ inner ++ ". URL: " ++ url

def parseJsonFailMsg (url inner : String) : String :=
  "Failed to parse JSON response from " ++ url ++ ": " ++ inner

def resendInvalidMsg (errorText : String) : String :=
  "HTTP 422 Unprocessable Entity :: Invalid solution" ++ colonTail errorText

def blockedAfterSolveMsg (url : String) : String :=
  "CAPTCHA solution was generated but request still returned HTTP 429. " ++
    "The solution may be invalid or expired. URL: " ++ url

def invalid422Msg (url errorText : String) : String :=
  "DB Schenker rejected the Captcha-Solution header with HTTP 422. " ++
    "The solution may be expired or invalid. URL: " ++ url ++ responseTail errorText

def jsToLower (s : String) : String :=
  ⟨s.toList.map (fun c => if 'A' ≤ c ∧ c ≤ 'Z' then Char.ofNat (c.toNat + 32) else c)⟩

/-- The 422 body test at `dbSchenkerClient.ts:288`. -/
def isInvalidSolutionText (t : String) : Bool :=
  strContains (jsToLower t) "invalid solution" || strContains (jsToLower t) "invalid" ||
    strContains (jsToLower t) "solution"

/-- `errorData` / `errorText` as the content-type-driven parse at
`dbSchenkerClient.ts:310-320` computes them. -/
def errDataText (r : HttpResponse) : Option Json × String :=
  if r.contentTypeJson then
    match r.bodyJson with
    | some j => (some j, jsonStringify j)
    | none => (none, "")
  else (none, errTextOf r)

/-- JS `res.ok`. -/
def resOk (r : HttpResponse) : Bool := 200 ≤ r.status && r.status ≤ 299

/-- Outcome of the post-solve resend (`dbSchenkerClient.ts:126-219`): a body
on success, otherwise the error as rethrown by the inner `catch`, which
passes the two CAPTCHA error classes and `apiError`-carrying errors through
and wraps everything else in `Failed to solve CAPTCHA puzzle: …`. -/
def resendOutcome (url : String) (rr : HttpResponse) : Except JsErr Json :=
  if resOk rr then
    match rr.bodyJson with
    | some j => .ok j
    | none => .error ⟨.generic none, solveFailMsg rr.jsonErrMsg url⟩
  else if rr.status = 422 then
    .error ⟨.solutionInvalid url, resendInvalidMsg (errTextOf rr)⟩
  else if rr.status = 429 then
    .error ⟨.captchaBlocked url true, blockedAfterSolveMsg url⟩
  else if rr.status = 404 then
    .error ⟨.generic none, solveFailMsg ("HTTP 404 Not Found" ++ colonTail (errTextOf rr)) url⟩
  else if rr.status = 400 then
    match errDataText rr with
    | (some d, t) => .error ⟨.generic (some d), "HTTP 400 Bad Request" ++ colonTail t⟩
    | (none, t) => .error ⟨.generic none, solveFailMsg ("HTTP 400 Bad Request" ++ colonTail t) url⟩
  else
    .error ⟨.generic none,
      solveFailMsg ("HTTP " ++ toString rr.status ++ " " ++ rr.statusText ++
        " after CAPTCHA solution" ++ colonTail (errTextOf rr)) url⟩


/-- One iteration of the retry loop of `fetchJson`
(`dbSchenkerClient.ts:69-384`), with the outer `catch` folded in:
`.inl` = the iteration returns or throws, `.inr st'` = the iteration slept
and the loop continues with `attempt + 1`.  The outer `catch` retries every
error except those whose message contains `parse JSON` or `fetch` and those
on the final attempt; in the source both of those cases rethrow `e`, so they
are merged into one test.  `Math.random` is drawn before the budget test in
the in-try 429 / 5xx branches (source lines 232-243 / 260-270) and only on
actual retry elsewhere, exactly as in the source. -/
def fetchAttempt (env : Env) (url : String) (retries : Nat) (retryDelayMs : ℚ) (now : Nat)
    (attempt : Nat) (st : St) : (FetchResult × St) ⊕ St :=
  let st1 : St := { st with sends := st.sends + 1 }
  let retryStep : St → (FetchResult × St) ⊕ St := fun st' =>
    let base := retryDelayMs * 2 ^ attempt
    let delay := base + env.rand st'.randIdx * base * (3 / 10)
    .inr { st' with randIdx := st'.randIdx + 1, sleeps := st'.sleeps ++ [delay] }
  let handle : JsErr → St → (FetchResult × St) ⊕ St := fun e st' =>
    if strContains e.msg "parse JSON" || strContains e.msg "fetch" || decide (retries ≤ attempt)
    then .inl (.err e, st')
    else retryStep st'
  match env.server st.sends with
  | .netFail => handle ⟨.generic none, "fetch failed"⟩ st1
  | .ok r =>
    if r.status = 429 ∧ r.puzzleHeader.isSome then
      let ph := r.puzzleHeader.getD ""
      if ph = "" then
        handle ⟨.captchaBlocked url false, noHeaderMsg url⟩ st1
      else
        match solveCaptcha ph with
        | .error m => handle ⟨.generic none, solveFailMsg m url⟩ st1
        | .ok _sol =>
          let st2 : St := { st1 with sends := st1.sends + 1 }
          match env.server st1.sends with
          | .netFail => handle ⟨.generic none, solveFailMsg "fetch failed" url⟩ st2
          | .ok rr =>
            match resendOutcome url rr with
            | .ok j => .inl (.ok j, st2)
            | .error e => handle e st2
    else if r.status = 429 then
      let base := retryDelayMs * 2 ^ attempt
      let delay := base + env.rand st1.randIdx * base * (3 / 10)
      let st2 : St := { st1 with randIdx := st1.randIdx + 1 }
      let e : JsErr := ⟨.generic none, rateLimitMsg url attempt retries delay (errTextOf r)⟩
      if retries ≤ attempt then .inl (.err e, st2)
      else .inr { st2 with sleeps := st2.sleeps ++ [delay] }
    else if 500 ≤ r.status ∧ r.status ≤ 599 then
      let base := retryDelayMs * 2 ^ attempt
      let delay := base + env.rand st1.randIdx * base * (3 / 10)
      let st2 : St := { st1 with randIdx := st1.randIdx + 1 }
      let e : JsErr := ⟨.generic none, httpErrMsg r.status r.statusText url (errTextOf r)⟩
      if retries ≤ attempt then .inl (.err e, st2)
      else .inr { st2 with sleeps := st2.sleeps ++ [delay] }
    else if r.status = 422 ∧ isInvalidSolutionText (errTextOf r) then
      handle ⟨.solutionInvalid url, invalid422Msg url (errTextOf r)⟩ st1
    else if ¬ resOk r then
      -- A 422 that falls through already consumed the body at line 282, so
      -- the re-reads at lines 313/316 reject and both stay empty.
      let dt := if r.status = 422 then (none, "") else errDataText r
      let e : JsErr := ⟨.generic (if 400 ≤ r.status ∧ r.status < 500 then dt.1 else none),
        httpErrMsg r.status r.statusText url dt.2⟩
      if 400 ≤ r.status ∧ r.status < 500 then handle e st1
      else if retries ≤ attempt then .inl (.err e, st1)
      else retryStep st1
    else
      match r.bodyJson with
      | none => handle ⟨.generic none, parseJsonFailMsg url r.jsonErrMsg⟩ st1
      | some j => .inl (.ok j, { st1 with cache := cacheSet st1.cache url j now })

def fetchLoop (env : Env) (url : String) (retries : Nat) (retryDelayMs : ℚ) (now : Nat) :
    Nat → Nat → St → FetchResult × St
  | 0, _, st =>
      (.err ⟨.generic none, "Failed to fetch " ++ url ++ " after " ++ toString retries ++
        " retries"⟩, st)
  | fuel + 1, attempt, st =>
    match fetchAttempt env url retries retryDelayMs now attempt st with
    | .inl out => out
    | .inr st' => fetchLoop env url retries retryDelayMs now fuel (attempt + 1) st'

/-- `fetchJson` (`dbSchenkerClient.ts:52-388`): cache consult/evict, then
the retry loop.  `retries + 1` loop iterations can run, so that much fuel is
exact. -/
def fetchJson (env : Env) (url : String) (retries : Nat) (retryDelayMs : ℚ) (now : Nat)
    (st : St) : FetchResult × St :=
  match cacheGet st.cache url with
  | some (d, ts) =>
      if now - ts < CACHE_TTL_MS then (.ok d, st)
      else fetchLoop env url retries retryDelayMs now (retries + 1) 0
        { st with cache := cacheDel st.cache url }
  | none => fetchLoop env url retries retryDelayMs now (retries + 1) 0 st


/-! ### URLs and the service wrappers (`dbSchenkerClient.ts:475-505`) -/

def BASE : String := "https://www.dbschenker.com/nges-portal/api/public/tracking-public"

/-- `encodeURIComponent`: unreserved characters pass through, everything
else is percent-encoded from its UTF-8 bytes with uppercase hex. -/
def uriUnreserved (c : Char) : Bool :=
  ('A' ≤ c && c ≤ 'Z') || ('a' ≤ c && c ≤ 'z') || ('0' ≤ c && c ≤ '9') ||
    c = '-' || c = '_' || c = '.' || c = '!' || c = '~' || c = '*' || c = '\'' ||
    c = '(' || c = ')'

def encodeURIComponent (s : String) : String :=
  ⟨(s.toList.map (fun c =>
      if uriUnreserved c then [c]
      else (utf8EncodeChar c).flatMap
        (fun b => ['%', hexDigitCharUpper (b / 16), hexDigitCharUpper (b % 16)]))).flatten⟩

def searchUrl (reference : String) : String :=
  BASE ++ "/shipments?query=" ++ encodeURIComponent reference

def detailsUrl (stt : String) : String :=
  BASE ++ "/shipments/land/" ++ encodeURIComponent ("LandStt:" ++ stt)

def tripUrl (stt : String) : String :=
  BASE ++ "/shipments/land/" ++ encodeURIComponent ("LandStt:" ++ stt) ++ "/trip"

/-- `searchShipment`: on an error carrying `apiError`, return
`{ message, code }` as the search result (absent fields become `null` in
the model); otherwise propagate. -/
def searchShipment (env : Env) (reference : String) (now : Nat) (st : St) :
    FetchResult × St :=
  match fetchJson env (searchUrl reference) 3 1000 now st with
  | (.ok j, st') => (.ok j, st')
  | (.err e, st') =>
    match e.kind with
    | .generic (some apiErr) =>
        (.ok (Json.obj [("message", (jsonGet apiErr "message").getD Json.null),
                        ("code", (jsonGet apiErr "code").getD Json.null)]), st')
    | _ => (.err e, st')

def fetchShipmentDetailsLandSE (env : Env) (stt : String) (now : Nat) (st : St) :
    FetchResult × St :=
  fetchJson env (detailsUrl stt) 3 1000 now st

def fetchTripLandSE (env : Env) (stt : String) (now : Nat) (st : St) : FetchResult × St :=
  fetchJson env (tripUrl stt) 3 1000 now st

/-! ### `DbSchenkerAdapter.track` -/

/-- `a?.k`, short-circuiting on nullish `a` and treating a `null` field as
absent only where `??` follows (callers pick). -/
def coGet (j : Json) (k : String) : Option Json := jsNullish (jsonGet j k)

/-- `j?.k ?? null`. -/
def cg (j : Json) (k : String) : Json := (coGet j k).getD Json.null

/-- `j?.k1?.k2 ?? null`. -/
def chain2 (j : Json) (k1 k2 : String) : Json :=
  match coGet j k1 with
  | none => Json.null
  | some inner => cg inner k2

/-- `Array.isArray(v) ? v : []` over a property access. -/
def arrOf (j : Json) (k : String) : List Json :=
  match jsonGet j k with
  | some (.arr l) => l
  | _ => []

def normalizeSenderReceiverLoc (loc : Json) (aKey bKey cKey : String) : Json :=
  match coGet loc aKey with
  | some v => v
  | none =>
    match coGet loc bKey with
    | some v => v
    | none =>
      match jsonGet loc cKey with
      | some sh =>
          if jsTruthy sh then
            Json.obj [("countryCode", (jsonGet sh "countryCode").getD Json.null),
                      ("country", (jsonGet sh "countryName").getD Json.null),
                      ("city", (jsonGet sh "cityName").getD Json.null),
                      ("postCode", (jsonGet sh "zipCode").getD Json.null)]
          else Json.null
      | none => Json.null

/-- `normalizeSenderReceiver` (part_010:10-28), as `(sender, receiver)`. -/
def normalizeSenderReceiver (details : Json) : Json × Json :=
  let loc := (coGet details "location").getD (Json.obj [])
  (normalizeSenderReceiverLoc loc "collectFrom" "shipperPlace" "shipper",
   normalizeSenderReceiverLoc loc "deliverTo" "consigneePlace" "consignee")

def normalizePackageEvent (e : Json) : Json :=
  Json.obj [("code", cg e "code"), ("date", cg e "date"),
            ("location", cg e "location"), ("countryCode", cg e "countryCode")]

def normalizePackage (p : Json) : Json :=
  Json.obj [("id", cg p "id"),
            ("events", Json.arr ((arrOf p "events").map normalizePackageEvent))]

/-- `normalizePackages` (part_010:30-53), as `(goods, packages)`. -/
def normalizePackages (details : Json) : Json × Json :=
  let goods := (coGet details "goods").getD (Json.obj [])
  (Json.obj [("pieces", cg goods "pieces"), ("weight", cg goods "weight"),
             ("volume", cg goods "volume"),
             ("dimensions", (coGet goods "dimensions").getD (Json.arr [])),
             ("loadingMeters", cg goods "loadingMeters")],
   Json.arr ((arrOf details "packages").map normalizePackage))

def normalizeReason (r : Json) : Json :=
  Json.obj [("code", cg r "code"), ("description", cg r "description")]

def normalizeHistoryEvent (e : Json) : Json :=
  Json.obj [("code", cg e "code"), ("timestamp", cg e "date"),
            ("description", cg e "comment"),
            ("location", chain2 e "location" "name"),
            ("locationCode", chain2 e "location" "code"),
            ("countryCode", chain2 e "location" "countryCode"),
            ("reasons", Json.arr ((arrOf e "reasons").map normalizeReason))]

def normalizeTripPoint (t : Json) : Json :=
  Json.obj [("code", cg t "lastEventCode"), ("timestamp", cg t "lastEventDate"),
            ("latitude", cg t "latitude"), ("longitude", cg t "longitude")]

/-- `normalizeTrackingHistory` (part_010:55-80), as `(history, tripPoints)`. -/
def normalizeTrackingHistory (details trip : Json) : Json × Json :=
  (Json.arr ((arrOf details "events").map normalizeHistoryEvent),
   Json.arr ((arrOf trip "trip").map normalizeTripPoint))

/-- The structured `TrackingResult` objects `track` can return; each
constructor mirrors one object literal of part_010 (constant `message` /
`hint` strings are determined by the constructor). -/
inductive TrackOut where
  | notFound (reference : String)
  | invalidResponse (reference : String) (searchResult : Json)
  | okRes (reference : String) (shipment sender receiver packageDetails packages
      trackingHistory tripStart tripEnd tripPoints rawHints : Json)
      (hasDetails hasTrip : Bool)
  | solutionInvalid (reference details : String)
  | blockedOut (reason url : String) (hasPuzzle : Bool)
  | apiError (reference details : String) (isRateLimited : Bool)

def trackOutStr : TrackOut → String
  | .notFound r => "NOT_FOUND:" ++ r
  | .invalidResponse r _ => "INVALID_RESPONSE:" ++ r
  | .okRes r _ _ _ _ _ _ ts _ _ _ hd ht =>
      "ok:" ++ r ++ ":hasDetails=" ++ toString hd ++ ":hasTrip=" ++ toString ht ++
        ":tripStart=" ++ jsonStringify ts
  | .solutionInvalid r d => "CAPTCHA_SOLUTION_INVALID:" ++ r ++ ":" ++ d
  | .blockedOut reason _ _ => "blocked:" ++ reason
  | .apiError r d rl => "API_ERROR:" ++ r ++ ":" ++ (if rl then "ratelimited:" else "") ++ d

def BLOCKED_TTL_MS : Nat := 60 * 1000

structure AdSt where
  fetchSt : St
  blocked : List (String × TrackOut × Nat)

def blockedGet : List (String × TrackOut × Nat) → String → Option (TrackOut × Nat)
  | [], _ => none
  | (k, resp, t) :: rest, ref => if k = ref then some (resp, t) else blockedGet rest ref

def blockedSet : List (String × TrackOut × Nat) → String → TrackOut → Nat →
    List (String × TrackOut × Nat)
  | [], ref, resp, t => [(ref, resp, t)]
  | (k, r0, t0) :: rest, ref, resp, t =>
      if k = ref then (ref, resp, t) :: rest else (k, r0, t0) :: blockedSet rest ref resp t

/-- `!search?.result?.length` (part_010:96), by JS truthiness of a `length`
read on the possible shapes of `result`. -/
def searchHasResults (j : Json) : Bool :=
  match jsonGet j "result" with
  | some (.arr l) => !l.isEmpty
  | some (.str s) => !s.isEmpty
  | some (.obj kvs) => match kvs.lookup "length" with
                       | some v => jsTruthy v
                       | none => false
  | _ => false

/-- `search.result[0]`. -/
def firstResult (j : Json) : Json :=
  match jsonGet j "result" with
  | some (.arr (x :: _)) => x
  | some (.str s) => Json.str ⟨[s.toList.headD ' ']⟩
  | some (.obj kvs) => (kvs.lookup "0").getD Json.null
  | _ => Json.null

mutual

/-- JS `String(v)` for the template literal building the detail URLs. -/
def jsToStringVal : Json → String
  | .null => "null"
  | .bool true => "true"
  | .bool false => "false"
  | .num raw => raw
  | .str s => s
  | .arr xs => jsToStringList xs
  | .obj _ => "[object Object]"

def jsToStringList : List Json → String
  | [] => ""
  | [x] => jsToStringVal x
  | x :: y :: rest => jsToStringVal x ++ "," ++ jsToStringList (y :: rest)

end

/-- `top.id ?? null` etc. (part_010:160-172). -/
def shipmentOf (top : Json) : Json :=
  Json.obj [("id", cg top "id"), ("stt", cg top "stt"),
            ("transportMode", cg top "transportMode"),
            ("progressPercent", cg top "percentageProgress"),
            ("lastEventCode", cg top "lastEventCode"),
            ("route", Json.obj [("fromLocation", cg top "fromLocation"),
                                ("toLocation", cg top "toLocation")]),
            ("startDate", cg top "startDate"), ("endDate", cg top "endDate")]

def rawHintsOf : Option Json → Json
  | some d =>
      Json.obj [("product", cg d "product"),
                ("activeStep", chain2 d "progressBar" "activeStep"),
                ("deliveryDate", cg d "deliveryDate"),
                ("references", cg d "references")]
  | none => Json.obj [("product", Json.null), ("activeStep", Json.null),
                      ("deliveryDate", Json.null), ("references", Json.null)]

/-- The `ok: true` response object (part_010:154-195). -/
def buildOk (reference : String) (top : Json) (details trip : Option Json) : TrackOut :=
  let sr := match details with
            | some d => normalizeSenderReceiver d
            | none => (Json.null, Json.null)
  let pkg := match details with
             | some d => normalizePackages d
             | none => (Json.null, Json.arr [])
  let tr := match details, trip with
            | some d, some t => normalizeTrackingHistory d t
            | _, _ => (Json.arr [], Json.arr [])
  .okRes reference (shipmentOf top) sr.1 sr.2 pkg.1 pkg.2 tr.1
    (match trip with | some t => cg t "start" | none => Json.null)
    (match trip with | some t => cg t "end" | none => Json.null)
    tr.2 (rawHintsOf details) details.isSome trip.isSome

/-- The adapter's `catch` block (part_010:197-250). -/
def trackCatch (reference : String) (e : JsErr) : TrackOut :=
  match e.kind with
  | .solutionInvalid _ => .solutionInvalid reference e.msg
  | .captchaBlocked url hasPuzzle => .blockedOut e.msg url hasPuzzle
  | .generic _ =>
      .apiError reference e.msg
        (strContains e.msg "HTTP 429" || strContains e.msg "429")

/-- Wraps `trackCatch`, adding the blocked-cache write that only the
`CaptchaBlockedError` arm performs. -/
def finishCatch (reference : String) (now : Nat) (e : JsErr) (fst : St) (ast : AdSt) :
    TrackOut × AdSt :=
  match trackCatch reference e with
  | .blockedOut m u hp =>
      (.blockedOut m u hp,
       { ast with fetchSt := fst,
                  blocked := blockedSet ast.blocked reference (.blockedOut m u hp) now })
  | out => (out, { ast with fetchSt := fst })

/-- The adapter ignores a rejected secondary call only when its message
mentions `404` or `Not Found` (part_010:133/147). -/
def is404Msg (m : String) : Bool := strContains m "404" || strContains m "Not Found"

/-- `track` after the blocked-cache fast path (part_010:93-251).
`Promise.allSettled` awaits both secondary fetches before either outcome is
inspected; the model runs them sequentially, details first, against the one
server stream. -/
def trackBody (env : Env) (reference : String) (now : Nat) (ast : AdSt) : TrackOut × AdSt :=
  match searchShipment env reference now ast.fetchSt with
  | (.err e, st') => finishCatch reference now e st' ast
  | (.ok search, st') =>
    if !searchHasResults search then
      (.notFound reference, { ast with fetchSt := st' })
    else
      let top := firstResult search
      let sttV := (jsonGet top "stt").getD Json.null
      if !jsTruthy sttV then
        (.invalidResponse reference top, { ast with fetchSt := st' })
      else
        let stt := jsToStringVal sttV
        match fetchShipmentDetailsLandSE env stt now st' with
        | (dres, st2) =>
          match fetchTripLandSE env stt now st2 with
          | (tres, st3) =>
            match dres with
            | .err e =>
              if !is404Msg e.msg then finishCatch reference now e st3 ast
              else
                match tres with
                | .err e2 =>
                  if !is404Msg e2.msg then finishCatch reference now e2 st3 ast
                  else (buildOk reference top none none, { ast with fetchSt := st3 })
                | .ok t => (buildOk reference top none (some t), { ast with fetchSt := st3 })
            | .ok d =>
              match tres with
              | .err e2 =>
                if !is404Msg e2.msg then finishCatch reference now e2 st3 ast
                else (buildOk reference top (some d) none, { ast with fetchSt := st3 })
              | .ok t => (buildOk reference top (some d) (some t), { ast with fetchSt := st3 })

/-- `DbSchenkerAdapter.track`, blocked-cache fast path included
(part_010:85-92: a fresh cached blocked payload is returned untouched; a
stale one is left in place and the body runs). -/
def track (env : Env) (reference : String) (now : Nat) (ast : AdSt) : TrackOut × AdSt :=
  match blockedGet ast.blocked reference with
  | some (resp, ts) =>
      if now - ts < BLOCKED_TTL_MS then (resp, ast) else trackBody env reference now ast
  | none => trackBody env reference now ast


/-! ### C7: network failure handling -/

/-- C7 (amended): a network failure is not retried.  The fetch promise
rejects with `TypeError: fetch failed`; the outer catch sees a message
containing `fetch` and rethrows at once, so whatever the retry budget is,
the call performs exactly one send, sleeps never, and raises the network
error immediately — a network failure is not treated like ServerTransient. -/
theorem c7_network_failure (env : Env) (url : String) (retries : Nat) (rd : ℚ)
    (now : Nat) (st : St)
    (h1 : cacheGet st.cache url = none) (h2 : env.server st.sends = .netFail) :
    fetchJson env url retries rd now st =
      (.err ⟨.generic none, "fetch failed"⟩, { st with sends := st.sends + 1 }) := by
  have hA : fetchAttempt env url retries rd now 0 st =
      .inl (.err ⟨.generic none, "fetch failed"⟩, { st with sends := st.sends + 1 }) := by
    unfold fetchAttempt
    rw [h2]
    rfl
  have key : fetchLoop env url retries rd now (retries + 1) 0 st =
      (.err ⟨.generic none, "fetch failed"⟩, { st with sends := st.sends + 1 }) := by
    rw [fetchLoop, hA]
  unfold fetchJson
  rw [h1]
  exact key

theorem c7_network_failure_witness :
    fetchJson ⟨fun _ => .netFail, fun _ => 0⟩ (searchUrl "X") 3 1000 0 ⟨[], 0, 0, []⟩ =
      (.err ⟨.generic none, "fetch failed"⟩, ⟨[], 1, 0, []⟩) :=
  c7_network_failure ⟨fun _ => .netFail, fun _ => 0⟩ (searchUrl "X") 3 1000 0
    ⟨[], 0, 0, []⟩ rfl rfl

/-- C7 (counterexample to the spec's sentence): with every fetch failing at
the network level and the default budget of 3 retries, the call does not
back off within the budget at all: it performs one send, records no sleeps,
and raises the network error immediately rather than only on the final
attempt. -/
theorem c7_network_failure_counterexample :
    fetchResStr (fetchJson ⟨fun _ => .netFail, fun _ => 0⟩ (searchUrl "REF") 3 1000 0
        ⟨[], 0, 0, []⟩).1 = "err:fetch failed" ∧
    (fetchJson ⟨fun _ => .netFail, fun _ => 0⟩ (searchUrl "REF") 3 1000 0
        ⟨[], 0, 0, []⟩).2.sends = 1 ∧
    (fetchJson ⟨fun _ => .netFail, fun _ => 0⟩ (searchUrl "REF") 3 1000 0
        ⟨[], 0, 0, []⟩).2.sleeps.length = 0 := by
  refine ⟨rfl, rfl, rfl⟩


/-! ### C6: HTTP 422 classification -/

def errKindStr : FetchResult → String
  | .ok _ => "ok"
  | .err ⟨.solutionInvalid _, _⟩ => "solutionInvalid"
  | .err ⟨.captchaBlocked _ _, _⟩ => "blocked"
  | .err ⟨.generic _, _⟩ => "generic"

/-- A direct 422 whose body names the solution. -/
def c6Resp : HttpResponse :=
  ⟨422, "Unprocessable Entity", none, false, some "Invalid solution", none, ""⟩

def c6Env : Env := ⟨fun _ => .ok c6Resp, fun _ => 0⟩

set_option maxRecDepth 100000 in
/-- C6 (amended): a direct HTTP 422 is classified as SolutionRejected
(`CaptchaSolutionInvalidError`) only when its lowercased body mentions
`invalid solution`, `invalid` or `solution`; otherwise it falls through to
the generic non-OK branch and is thrown as a plain error.  On the final
attempt the iteration throws whichever of the two errors applies (first
conjunct, an exact case split on the body test); a matching 422 is not
thrown on the spot on earlier attempts either, but retried by the outer
catch until the budget is spent: with the body `Invalid solution` on every
response the run raises the SolutionRejected error after 4 sends (second
and third conjuncts). -/
theorem c6_422_classification (env : Env) (url : String) (rd : ℚ) (now : Nat) (st : St)
    (r : HttpResponse) (h1 : env.server st.sends = .ok r) (h2 : r.status = 422)
    (h3 : r.puzzleHeader = none) :
    fetchAttempt env url 3 rd now 3 st =
      .inl (.err (if isInvalidSolutionText (errTextOf r) = true
          then ⟨.solutionInvalid url, invalid422Msg url (errTextOf r)⟩
          else ⟨.generic none, httpErrMsg 422 r.statusText url ""⟩),
        { st with sends := st.sends + 1 }) ∧
    fetchResStr (fetchJson c6Env (searchUrl "REF") 3 1000 0 ⟨[], 0, 0, []⟩).1 =
      "err:" ++ invalid422Msg (searchUrl "REF") "Invalid solution" ∧
    (fetchJson c6Env (searchUrl "REF") 3 1000 0 ⟨[], 0, 0, []⟩).2.sends = 4 := by
  refine ⟨?_, rfl, rfl⟩
  unfold fetchAttempt
  rw [h1]
  by_cases hinv : isInvalidSolutionText (errTextOf r) = true
  · simp [h2, h3, hinv, resOk]
  · simp [h2, h3, hinv, resOk, httpErrMsg]

set_option maxRecDepth 100000 in
theorem c6_422_classification_witness :
    fetchAttempt c6Env (searchUrl "W") 3 1000 0 3 ⟨[], 0, 0, []⟩ =
      .inl (.err (if isInvalidSolutionText (errTextOf c6Resp) = true
          then ⟨.solutionInvalid (searchUrl "W"), invalid422Msg (searchUrl "W")
            (errTextOf c6Resp)⟩
          else ⟨.generic none, httpErrMsg 422 c6Resp.statusText (searchUrl "W") ""⟩),
        ⟨[], 1, 0, []⟩) ∧
    fetchResStr (fetchJson c6Env (searchUrl "REF") 3 1000 0 ⟨[], 0, 0, []⟩).1 =
      "err:" ++ invalid422Msg (searchUrl "REF") "Invalid solution" ∧
    (fetchJson c6Env (searchUrl "REF") 3 1000 0 ⟨[], 0, 0, []⟩).2.sends = 4 :=
  c6_422_classification c6Env (searchUrl "W") 1000 0 ⟨[], 0, 0, []⟩ c6Resp rfl rfl rfl

set_option maxRecDepth 100000 in
/-- C6 (counterexample to the spec's sentence): a 422 whose body is empty is
not classified as SolutionRejected: the run ends in a plain error with the
generic `HTTP 422 … for …` message (and only after the outer catch has spent
the whole retry budget on it: 4 sends). -/
theorem c6_422_counterexample :
    errKindStr (fetchJson ⟨fun _ => .ok ⟨422, "Unprocessable Entity", none, false,
        some "", none, ""⟩, fun _ => 0⟩ (searchUrl "REF") 3 1000 0 ⟨[], 0, 0, []⟩).1 =
      "generic" ∧
    fetchResStr (fetchJson ⟨fun _ => .ok ⟨422, "Unprocessable Entity", none, false,
        some "", none, ""⟩, fun _ => 0⟩ (searchUrl "REF") 3 1000 0 ⟨[], 0, 0, []⟩).1 =
      "err:" ++ httpErrMsg 422 "Unprocessable Entity" (searchUrl "REF") "" ∧
    (fetchJson ⟨fun _ => .ok ⟨422, "Unprocessable Entity", none, false,
        some "", none, ""⟩, fun _ => 0⟩ (searchUrl "REF") 3 1000 0
        ⟨[], 0, 0, []⟩).2.sends = 4 := by
  refine ⟨rfl, rfl, rfl⟩


/-! ### C5: 429 rate limiting, backoff and jitter -/

theorem fetchLoop_succ (env : Env) (url : String) (retries : Nat) (rd : ℚ) (now : Nat)
    (fuel attempt : Nat) (st : St) :
    fetchLoop env url retries rd now (fuel + 1) attempt st =
      match fetchAttempt env url retries rd now attempt st with
      | .inl out => out
      | .inr st' => fetchLoop env url retries rd now fuel (attempt + 1) st' := rfl

def c5Resp : HttpResponse := ⟨429, "Too Many Requests", none, false, some "", none, ""⟩

def c5Env : Env := ⟨fun _ => .ok c5Resp, fun _ => 0⟩

/-- C5: four consecutive 429 responses without a challenge header and the
default budget `retries = 3` make the fetch perform exactly 4 sends and
raise the rate-limit error; the delay slept before retry `n` (`n = 0, 1, 2`)
is `baseDelay * 2^n` plus the jitter `rand n * (baseDelay * 2^n) * 0.3`,
which for `rand n ∈ [0, 1)` lies in `[0, 0.3 * baseDelay * 2^n)`, with
`baseDelay = 1000`. -/
theorem c5_rate_limit_backoff (env : Env) (url : String) (now : Nat) (r : HttpResponse)
    (h1 : ∀ n, n < 4 → env.server n = .ok r) (h2 : r.status = 429)
    (h3 : r.puzzleHeader = none) (hrand : ∀ i, 0 ≤ env.rand i ∧ env.rand i < 1) :
    (fetchJson env url 3 1000 now ⟨[], 0, 0, []⟩).2.sends = 4 ∧
    (fetchJson env url 3 1000 now ⟨[], 0, 0, []⟩).2.sleeps =
      [1000 * 2 ^ 0 + env.rand 0 * (1000 * 2 ^ 0) * (3 / 10),
       1000 * 2 ^ 1 + env.rand 1 * (1000 * 2 ^ 1) * (3 / 10),
       1000 * 2 ^ 2 + env.rand 2 * (1000 * 2 ^ 2) * (3 / 10)] ∧
    (∀ n : Nat, 1000 * 2 ^ n ≤ 1000 * 2 ^ n + env.rand n * (1000 * 2 ^ n) * (3 / 10) ∧
      1000 * 2 ^ n + env.rand n * (1000 * 2 ^ n) * (3 / 10) <
        1000 * 2 ^ n + 3 / 10 * (1000 * 2 ^ n)) ∧
    (fetchJson env url 3 1000 now ⟨[], 0, 0, []⟩).1 =
      .err ⟨.generic none, rateLimitMsg url 3 3
        (1000 * 2 ^ 3 + env.rand 3 * (1000 * 2 ^ 3) * (3 / 10)) (errTextOf r)⟩ ∧
    (∃ suffix, rateLimitMsg url 3 3
        (1000 * 2 ^ 3 + env.rand 3 * (1000 * 2 ^ 3) * (3 / 10)) (errTextOf r) =
      "HTTP 429 Too Many Requests (Rate Limited) | URL: " ++ suffix) := by
  have e0 : env.server (⟨[], 0, 0, []⟩ : St).sends = .ok r := h1 0 (by norm_num)
  have a0 : fetchAttempt env url 3 1000 now 0 ⟨[], 0, 0, []⟩ =
      .inr ⟨[], 1, 1, [1000 * 2 ^ 0 + env.rand 0 * (1000 * 2 ^ 0) * (3 / 10)]⟩ := by
    unfold fetchAttempt
    rw [e0]
    simp only [h2, h3]
    rfl
  have e1 : env.server (⟨[], 1, 1,
      [1000 * 2 ^ 0 + env.rand 0 * (1000 * 2 ^ 0) * (3 / 10)]⟩ : St).sends = .ok r :=
    h1 1 (by norm_num)
  have a1 : fetchAttempt env url 3 1000 now 1
      ⟨[], 1, 1, [1000 * 2 ^ 0 + env.rand 0 * (1000 * 2 ^ 0) * (3 / 10)]⟩ =
      .inr ⟨[], 2, 2, [1000 * 2 ^ 0 + env.rand 0 * (1000 * 2 ^ 0) * (3 / 10),
        1000 * 2 ^ 1 + env.rand 1 * (1000 * 2 ^ 1) * (3 / 10)]⟩ := by
    unfold fetchAttempt
    rw [e1]
    simp only [h2, h3]
    rfl
  have e2 : env.server (⟨[], 2, 2,
      [1000 * 2 ^ 0 + env.rand 0 * (1000 * 2 ^ 0) * (3 / 10),
       1000 * 2 ^ 1 + env.rand 1 * (1000 * 2 ^ 1) * (3 / 10)]⟩ : St).sends = .ok r :=
    h1 2 (by norm_num)
  have a2 : fetchAttempt env url 3 1000 now 2
      ⟨[], 2, 2, [1000 * 2 ^ 0 + env.rand 0 * (1000 * 2 ^ 0) * (3 / 10),
        1000 * 2 ^ 1 + env.rand 1 * (1000 * 2 ^ 1) * (3 / 10)]⟩ =
      .inr ⟨[], 3, 3, [1000 * 2 ^ 0 + env.rand 0 * (1000 * 2 ^ 0) * (3 / 10),
        1000 * 2 ^ 1 + env.rand 1 * (1000 * 2 ^ 1) * (3 / 10),
        1000 * 2 ^ 2 + env.rand 2 * (1000 * 2 ^ 2) * (3 / 10)]⟩ := by
    unfold fetchAttempt
    rw [e2]
    simp only [h2, h3]
    rfl
  have e3 : env.server (⟨[], 3, 3,
      [1000 * 2 ^ 0 + env.rand 0 * (1000 * 2 ^ 0) * (3 / 10),
       1000 * 2 ^ 1 + env.rand 1 * (1000 * 2 ^ 1) * (3 / 10),
       1000 * 2 ^ 2 + env.rand 2 * (1000 * 2 ^ 2) * (3 / 10)]⟩ : St).sends = .ok r :=
    h1 3 (by norm_num)
  have a3 : fetchAttempt env url 3 1000 now 3
      ⟨[], 3, 3, [1000 * 2 ^ 0 + env.rand 0 * (1000 * 2 ^ 0) * (3 / 10),
        1000 * 2 ^ 1 + env.rand 1 * (1000 * 2 ^ 1) * (3 / 10),
        1000 * 2 ^ 2 + env.rand 2 * (1000 * 2 ^ 2) * (3 / 10)]⟩ =
      .inl (.err ⟨.generic none, rateLimitMsg url 3 3
          (1000 * 2 ^ 3 + env.rand 3 * (1000 * 2 ^ 3) * (3 / 10)) (errTextOf r)⟩,
        ⟨[], 4, 4, [1000 * 2 ^ 0 + env.rand 0 * (1000 * 2 ^ 0) * (3 / 10),
          1000 * 2 ^ 1 + env.rand 1 * (1000 * 2 ^ 1) * (3 / 10),
          1000 * 2 ^ 2 + env.rand 2 * (1000 * 2 ^ 2) * (3 / 10)]⟩) := by
    unfold fetchAttempt
    rw [e3]
    simp only [h2, h3]
    rfl
  have key : fetchJson env url 3 1000 now ⟨[], 0, 0, []⟩ =
      (.err ⟨.generic none, rateLimitMsg url 3 3
          (1000 * 2 ^ 3 + env.rand 3 * (1000 * 2 ^ 3) * (3 / 10)) (errTextOf r)⟩,
        ⟨[], 4, 4, [1000 * 2 ^ 0 + env.rand 0 * (1000 * 2 ^ 0) * (3 / 10),
          1000 * 2 ^ 1 + env.rand 1 * (1000 * 2 ^ 1) * (3 / 10),
          1000 * 2 ^ 2 + env.rand 2 * (1000 * 2 ^ 2) * (3 / 10)]⟩) := by
    show fetchLoop env url 3 1000 now (3 + 1) 0 ⟨[], 0, 0, []⟩ = _
    rw [fetchLoop_succ, a0]
    show fetchLoop env url 3 1000 now (2 + 1) 1
      ⟨[], 1, 1, [1000 * 2 ^ 0 + env.rand 0 * (1000 * 2 ^ 0) * (3 / 10)]⟩ = _
    rw [fetchLoop_succ, a1]
    show fetchLoop env url 3 1000 now (1 + 1) 2
      ⟨[], 2, 2, [1000 * 2 ^ 0 + env.rand 0 * (1000 * 2 ^ 0) * (3 / 10),
        1000 * 2 ^ 1 + env.rand 1 * (1000 * 2 ^ 1) * (3 / 10)]⟩ = _
    rw [fetchLoop_succ, a2]
    show fetchLoop env url 3 1000 now (0 + 1) 3
      ⟨[], 3, 3, [1000 * 2 ^ 0 + env.rand 0 * (1000 * 2 ^ 0) * (3 / 10),
        1000 * 2 ^ 1 + env.rand 1 * (1000 * 2 ^ 1) * (3 / 10),
        1000 * 2 ^ 2 + env.rand 2 * (1000 * 2 ^ 2) * (3 / 10)]⟩ = _
    rw [fetchLoop_succ, a3]
  refine ⟨by rw [key], by rw [key], ?_, by rw [key], ?_⟩
  · intro n
    have hp : (0 : ℚ) < 1000 * 2 ^ n := by positivity
    have hr0 := (hrand n).1
    have hr1 := (hrand n).2
    constructor
    · nlinarith
    · nlinarith
  · exact ⟨url ++ (" | Attempt: " ++ toString (3 + 1) ++ "/" ++ toString (3 + 1) ++
      " | Backoff delay: " ++ toString (jsRound (1000 * 2 ^ 3 +
        env.rand 3 * (1000 * 2 ^ 3) * (3 / 10))) ++ "ms" ++
      responseTail (errTextOf r)), by simp [rateLimitMsg, String.append_assoc]⟩


theorem c5_rate_limit_backoff_witness :
    (fetchJson c5Env (searchUrl "X") 3 1000 0 ⟨[], 0, 0, []⟩).2.sends = 4 ∧
    (fetchJson c5Env (searchUrl "X") 3 1000 0 ⟨[], 0, 0, []⟩).2.sleeps =
      [1000 * 2 ^ 0 + c5Env.rand 0 * (1000 * 2 ^ 0) * (3 / 10),
       1000 * 2 ^ 1 + c5Env.rand 1 * (1000 * 2 ^ 1) * (3 / 10),
       1000 * 2 ^ 2 + c5Env.rand 2 * (1000 * 2 ^ 2) * (3 / 10)] ∧
    (∀ n : Nat, 1000 * 2 ^ n ≤ 1000 * 2 ^ n + c5Env.rand n * (1000 * 2 ^ n) * (3 / 10) ∧
      1000 * 2 ^ n + c5Env.rand n * (1000 * 2 ^ n) * (3 / 10) <
        1000 * 2 ^ n + 3 / 10 * (1000 * 2 ^ n)) ∧
    (fetchJson c5Env (searchUrl "X") 3 1000 0 ⟨[], 0, 0, []⟩).1 =
      .err ⟨.generic none, rateLimitMsg (searchUrl "X") 3 3
        (1000 * 2 ^ 3 + c5Env.rand 3 * (1000 * 2 ^ 3) * (3 / 10)) (errTextOf c5Resp)⟩ ∧
    (∃ suffix, rateLimitMsg (searchUrl "X") 3 3
        (1000 * 2 ^ 3 + c5Env.rand 3 * (1000 * 2 ^ 3) * (3 / 10)) (errTextOf c5Resp) =
      "HTTP 429 Too Many Requests (Rate Limited) | URL: " ++ suffix) :=
  c5_rate_limit_backoff c5Env (searchUrl "X") 0 c5Resp (fun _ _ => rfl) rfl rfl
    (fun _ => ⟨le_refl 0, zero_lt_one⟩)


/-! ### C4: the response cache lifecycle -/

theorem cacheGet_cacheDel : ∀ (c : List (String × Json × Nat)) (u : String),
    cacheGet (cacheDel c u) u = none
  | [], _ => rfl
  | (k, d, t) :: rest, u => by
    by_cases hk : k = u
    · simp [cacheDel, hk, cacheGet_cacheDel rest u]
    · simp [cacheDel, hk, cacheGet, cacheGet_cacheDel rest u]

theorem cacheGet_cacheSet : ∀ (c : List (String × Json × Nat)) (u : String) (d : Json)
    (t : Nat), cacheGet (cacheSet c u d t) u = some (d, t)
  | [], u, d, t => by simp [cacheSet, cacheGet]
  | (k, d0, t0) :: rest, u, d, t => by
    by_cases hk : k = u
    · simp [cacheSet, hk, cacheGet]
    · simp [cacheSet, hk, cacheGet, cacheGet_cacheSet rest u d t]

theorem fetchAttempt_inr_cache (env : Env) (url : String) (retries : Nat) (rd : ℚ)
    (now attempt : Nat) (st st' : St)
    (h : fetchAttempt env url retries rd now attempt st = .inr st') :
    st'.cache = st.cache := by
  unfold fetchAttempt at h
  simp only [] at h
  repeat' split at h
  all_goals first
    | exact Sum.noConfusion h
    | (injection h with h; subst h; rfl)

set_option maxHeartbeats 2000000 in
theorem fetchAttempt_inl_err_cache (env : Env) (url : String) (retries : Nat) (rd : ℚ)
    (now attempt : Nat) (st st' : St) (e : JsErr)
    (h : fetchAttempt env url retries rd now attempt st = .inl (.err e, st')) :
    st'.cache = st.cache := by
  unfold fetchAttempt at h
  simp only [] at h
  repeat' split at h
  all_goals first
    | exact Sum.noConfusion h
    | (injection h with h; injection h with h1 h2;
       first
       | exact FetchResult.noConfusion h1
       | (subst h2; rfl))

theorem fetchLoop_err_cache (env : Env) (url : String) (retries : Nat) (rd : ℚ)
    (now : Nat) : ∀ (fuel attempt : Nat) (st : St) (e : JsErr) (st' : St),
    fetchLoop env url retries rd now fuel attempt st = (.err e, st') → st'.cache = st.cache
  | 0, _, st, e, st', h => by
    injection h with h1 h2
    rw [← h2]
  | fuel + 1, attempt, st, e, st', h => by
    rw [fetchLoop_succ] at h
    rcases hA : fetchAttempt env url retries rd now attempt st with out | stR
    · rw [hA] at h
      dsimp only at h
      subst h
      exact fetchAttempt_inl_err_cache env url retries rd now attempt st st' e hA
    · rw [hA] at h
      dsimp only at h
      rw [fetchLoop_err_cache env url retries rd now fuel (attempt + 1) stR e st' h]
      exact fetchAttempt_inr_cache env url retries rd now attempt st stR hA


theorem fetchAttempt_success (env : Env) (url : String) (retries : Nat) (rd : ℚ)
    (now attempt : Nat) (st : St) (r : HttpResponse) (j : Json)
    (hsrv : env.server st.sends = .ok r) (hok : resOk r = true)
    (hj : r.bodyJson = some j) :
    fetchAttempt env url retries rd now attempt st =
      .inl (.ok j, { st with sends := st.sends + 1
                             cache := cacheSet st.cache url j now }) := by
  have hb := hok
  simp only [resOk, Bool.and_eq_true, decide_eq_true_eq] at hb
  obtain ⟨hlo, hhi⟩ := hb
  unfold fetchAttempt
  rw [hsrv]
  simp [show ¬(r.status = 429) from by omega,
    show ¬(500 ≤ r.status ∧ r.status ≤ 599) from by omega,
    show ¬(r.status = 422) from by omega, hok, hj]

/-- C4 (amended): the cache lifecycle as implemented.  (1) A cached entry
younger than 60 s is returned without any send and without touching the
state.  (2) An entry at least 60 s old is treated as absent: the call
behaves exactly as it would with the entry removed.  (3) A 2xx response
whose body parses as JSON creates an entry timestamped with the current
instant, which a lookup then finds.  (4) A run of the retry loop that ends
in an error never changes the cache — no entry is written for any non-2xx
outcome.  (The success of a resend that followed a challenge does not write
an entry; see the counterexample.) -/
theorem c4_cache_lifecycle :
    (∀ (env : Env) (url : String) (retries : Nat) (rd : ℚ) (now : Nat) (st : St)
      (d : Json) (ts : Nat), cacheGet st.cache url = some (d, ts) →
      now - ts < CACHE_TTL_MS →
      fetchJson env url retries rd now st = (.ok d, st)) ∧
    (∀ (env : Env) (url : String) (retries : Nat) (rd : ℚ) (now : Nat) (st : St)
      (d : Json) (ts : Nat), cacheGet st.cache url = some (d, ts) →
      ¬ now - ts < CACHE_TTL_MS →
      fetchJson env url retries rd now st =
        fetchJson env url retries rd now { st with cache := cacheDel st.cache url }) ∧
    (∀ (env : Env) (url : String) (retries : Nat) (rd : ℚ) (now : Nat) (st : St)
      (r : HttpResponse) (j : Json), cacheGet st.cache url = none →
      env.server st.sends = .ok r → resOk r = true → r.bodyJson = some j →
      fetchJson env url retries rd now st =
        (.ok j, { st with sends := st.sends + 1
                          cache := cacheSet st.cache url j now }) ∧
      cacheGet (cacheSet st.cache url j now) url = some (j, now)) ∧
    (∀ (env : Env) (url : String) (retries : Nat) (rd : ℚ) (now fuel attempt : Nat)
      (st : St) (e : JsErr) (st' : St),
      fetchLoop env url retries rd now fuel attempt st = (.err e, st') →
      st'.cache = st.cache) := by
  refine ⟨?_, ?_, ?_, ?_⟩
  · intro env url retries rd now st d ts h hf
    unfold fetchJson
    simp only [h]
    rw [if_pos hf]
  · intro env url retries rd now st d ts h hs
    unfold fetchJson
    simp only [h]
    rw [if_neg hs]
    have h2 : cacheGet ({ st with cache := cacheDel st.cache url } : St).cache url = none :=
      cacheGet_cacheDel st.cache url
    simp only [h2]
  · intro env url retries rd now st r j h1 h2 h3 h4
    refine ⟨?_, cacheGet_cacheSet st.cache url j now⟩
    unfold fetchJson
    simp only [h1]
    rw [fetchLoop_succ, fetchAttempt_success env url retries rd now 0 st r j h2 h3 h4]
  · intro env url retries rd now fuel attempt st e st' h
    exact fetchLoop_err_cache env url retries rd now fuel attempt st e st' h


def c4OkEnv : Env := ⟨fun _ => .ok ⟨200, "OK", none, true, none, some (Json.str "w"), ""⟩,
  fun _ => 0⟩

theorem c4_cache_lifecycle_witness :
    fetchJson c5Env "u" 3 1000 20 ⟨[("u", Json.str "v", 10)], 0, 0, []⟩ =
      (.ok (Json.str "v"), ⟨[("u", Json.str "v", 10)], 0, 0, []⟩) ∧
    fetchJson c5Env "u" 3 1000 99999999 ⟨[("u", Json.str "v", 10)], 0, 0, []⟩ =
      fetchJson c5Env "u" 3 1000 99999999
        ⟨cacheDel [("u", Json.str "v", 10)] "u", 0, 0, []⟩ ∧
    (fetchJson c4OkEnv "u" 3 1000 42 ⟨[], 0, 0, []⟩ =
      (.ok (Json.str "w"), ⟨cacheSet [] "u" (Json.str "w") 42, 1, 0, []⟩) ∧
     cacheGet (cacheSet [] "u" (Json.str "w") 42) "u" = some (Json.str "w", 42)) ∧
    (⟨[], 1, 0, []⟩ : St).cache = (⟨[], 0, 0, []⟩ : St).cache :=
  ⟨c4_cache_lifecycle.1 c5Env "u" 3 1000 20 ⟨[("u", Json.str "v", 10)], 0, 0, []⟩
      (Json.str "v") 10 rfl (by decide),
   c4_cache_lifecycle.2.1 c5Env "u" 3 1000 99999999 ⟨[("u", Json.str "v", 10)], 0, 0, []⟩
      (Json.str "v") 10 rfl (by decide),
   c4_cache_lifecycle.2.2.1 c4OkEnv "u" 3 1000 42 ⟨[], 0, 0, []⟩
      ⟨200, "OK", none, true, none, some (Json.str "w"), ""⟩ (Json.str "w")
      rfl rfl rfl rfl,
   c4_cache_lifecycle.2.2.2 ⟨fun _ => .netFail, fun _ => 0⟩ "u" 3 1000 0 4 0
      ⟨[], 0, 0, []⟩ ⟨.generic none, "fetch failed"⟩ ⟨[], 1, 0, []⟩ rfl⟩

set_option maxRecDepth 100000 in
set_option maxHeartbeats 4000000 in
/-- C4 (counterexample to the spec's sentence): the success of a resend that
followed a challenge does not create a cache entry.  With a first response
of 429 plus a solvable `Captcha-Puzzle` header and a resend answered 200
with a JSON body, the fetch returns the body after 2 sends and the cache is
still empty. -/
theorem c4_cache_counterexample :
    fetchResStr (fetchJson ⟨fun n => if n = 0 then
        .ok ⟨429, "Too Many Requests", some cHeader, false, some "", none, ""⟩ else
        .ok ⟨200, "OK", none, true, none, some (Json.str "d"), ""⟩, fun _ => 0⟩
      (searchUrl "REF") 3 1000 5 ⟨[], 0, 0, []⟩).1 = "ok:\"d\"" ∧
    ((fetchJson ⟨fun n => if n = 0 then
        .ok ⟨429, "Too Many Requests", some cHeader, false, some "", none, ""⟩ else
        .ok ⟨200, "OK", none, true, none, some (Json.str "d"), ""⟩, fun _ => 0⟩
      (searchUrl "REF") 3 1000 5 ⟨[], 0, 0, []⟩).2.cache).isEmpty = true ∧
    (fetchJson ⟨fun n => if n = 0 then
        .ok ⟨429, "Too Many Requests", some cHeader, false, some "", none, ""⟩ else
        .ok ⟨200, "OK", none, true, none, some (Json.str "d"), ""⟩, fun _ => 0⟩
      (searchUrl "REF") 3 1000 5 ⟨[], 0, 0, []⟩).2.sends = 2 :=
  ⟨rfl, rfl, rfl⟩


/-! ### C3: challenge handling, Blocked, and the blocked cache -/

theorem blockedGet_blockedSet : ∀ (c : List (String × TrackOut × Nat)) (ref : String)
    (resp : TrackOut) (t : Nat), blockedGet (blockedSet c ref resp t) ref = some (resp, t)
  | [], ref, resp, t => by simp [blockedSet, blockedGet]
  | (k, r0, t0) :: rest, ref, resp, t => by
    by_cases hk : k = ref
    · simp [blockedSet, hk, blockedGet]
    · simp [blockedSet, hk, blockedGet, blockedGet_blockedSet rest ref resp t]

/-- One retried challenge round: 429 + solvable header, resend also 429,
`CaptchaBlockedError` caught by the outer catch, backoff, continue. -/
theorem c3_attempt_retry (env : Env) (url : String) (rd : ℚ) (now attempt : Nat) (st : St)
    (r : HttpResponse) (ph sol : String)
    (henv1 : env.server st.sends = .ok r) (henv2 : env.server (st.sends + 1) = .ok r)
    (hst : r.status = 429) (hph : r.puzzleHeader = some ph) (hne : ph ≠ "")
    (hsol : solveCaptcha ph = .ok sol)
    (hu1 : strContains (blockedAfterSolveMsg url) "parse JSON" = false)
    (hu2 : strContains (blockedAfterSolveMsg url) "fetch" = false)
    (hlt : attempt < 3) :
    fetchAttempt env url 3 rd now attempt st =
      .inr { st with sends := st.sends + 2
                     randIdx := st.randIdx + 1
                     sleeps := st.sleeps ++
                       [rd * 2 ^ attempt + env.rand st.randIdx * (rd * 2 ^ attempt) *
                         (3 / 10)] } := by
  have hd : decide (3 ≤ attempt) = false := decide_eq_false (by omega)
  unfold fetchAttempt
  rw [henv1]
  simp only [hst, hph]
  rw [show env.server ({ st with sends := st.sends + 1 } : St).sends = .ok r from henv2]
  simp [hne, hsol, resendOutcome, resOk, hst, hu1, hu2, hd]

/-- The final challenge round: the `CaptchaBlockedError` of the resend is
rethrown because the budget is spent. -/
theorem c3_attempt_final (env : Env) (url : String) (rd : ℚ) (now : Nat) (st : St)
    (r : HttpResponse) (ph sol : String)
    (henv1 : env.server st.sends = .ok r) (henv2 : env.server (st.sends + 1) = .ok r)
    (hst : r.status = 429) (hph : r.puzzleHeader = some ph) (hne : ph ≠ "")
    (hsol : solveCaptcha ph = .ok sol) :
    fetchAttempt env url 3 rd now 3 st =
      .inl (.err ⟨.captchaBlocked url true, blockedAfterSolveMsg url⟩,
        { st with sends := st.sends + 2 }) := by
  unfold fetchAttempt
  rw [henv1]
  simp only [hst, hph]
  rw [show env.server ({ st with sends := st.sends + 1 } : St).sends = .ok r from henv2]
  simp [hne, hsol, resendOutcome, resOk, hst]


/-- C3 (amended): blocking is reached only after the retry budget is spent,
and the blocked payload is then cached and replayed.  (1) With every
response being 429 with a solvable challenge header and every resend
answered 429 again, the fetch (default budget 3) raises
`CaptchaBlockedError` only after 4 challenge rounds — 8 network sends.
(2) A `track` call finding a fresh (younger than 60 s) blocked entry for
its reference returns exactly the cached payload and performs no send at
all (the state is untouched).  (3) When a tracking operation ends in
`CaptchaBlockedError`, the adapter returns the blocked payload and caches
it for the reference at the current instant. -/
theorem c3_challenge_blocked (env : Env) (url : String) (rd : ℚ) (now : Nat)
    (r : HttpResponse) (ph sol : String)
    (henv : ∀ n, env.server n = .ok r) (hst : r.status = 429)
    (hph : r.puzzleHeader = some ph) (hne : ph ≠ "")
    (hsol : solveCaptcha ph = .ok sol)
    (hu1 : strContains (blockedAfterSolveMsg url) "parse JSON" = false)
    (hu2 : strContains (blockedAfterSolveMsg url) "fetch" = false) :
    ((fetchJson env url 3 rd now ⟨[], 0, 0, []⟩).1 =
        .err ⟨.captchaBlocked url true, blockedAfterSolveMsg url⟩ ∧
      (fetchJson env url 3 rd now ⟨[], 0, 0, []⟩).2.sends = 8) ∧
    (∀ (env2 : Env) (ref : String) (now2 : Nat) (ast : AdSt) (resp : TrackOut) (ts : Nat),
      blockedGet ast.blocked ref = some (resp, ts) → now2 - ts < BLOCKED_TTL_MS →
      track env2 ref now2 ast = (resp, ast)) ∧
    (∀ (ref : String) (now3 : Nat) (e : JsErr) (u2 : String) (hp : Bool) (fst : St)
      (ast : AdSt), e.kind = .captchaBlocked u2 hp →
      blockedGet (finishCatch ref now3 e fst ast).2.blocked ref =
        some (.blockedOut e.msg u2 hp, now3) ∧
      (finishCatch ref now3 e fst ast).1 = .blockedOut e.msg u2 hp) := by
  refine ⟨?_, ?_, ?_⟩
  · have a0 := c3_attempt_retry env url rd now 0 ⟨[], 0, 0, []⟩ r ph sol
      (henv 0) (henv 1) hst hph hne hsol hu1 hu2 (by norm_num)
    have a1 := c3_attempt_retry env url rd now 1
      ⟨[], 2, 1, [rd * 2 ^ 0 + env.rand 0 * (rd * 2 ^ 0) * (3 / 10)]⟩ r ph sol
      (henv 2) (henv 3) hst hph hne hsol hu1 hu2 (by norm_num)
    have a2 := c3_attempt_retry env url rd now 2
      ⟨[], 4, 2, [rd * 2 ^ 0 + env.rand 0 * (rd * 2 ^ 0) * (3 / 10),
        rd * 2 ^ 1 + env.rand 1 * (rd * 2 ^ 1) * (3 / 10)]⟩ r ph sol
      (henv 4) (henv 5) hst hph hne hsol hu1 hu2 (by norm_num)
    have a3 := c3_attempt_final env url rd now
      ⟨[], 6, 3, [rd * 2 ^ 0 + env.rand 0 * (rd * 2 ^ 0) * (3 / 10),
        rd * 2 ^ 1 + env.rand 1 * (rd * 2 ^ 1) * (3 / 10),
        rd * 2 ^ 2 + env.rand 2 * (rd * 2 ^ 2) * (3 / 10)]⟩ r ph sol
      (henv 6) (henv 7) hst hph hne hsol
    have key : fetchJson env url 3 rd now ⟨[], 0, 0, []⟩ =
        (.err ⟨.captchaBlocked url true, blockedAfterSolveMsg url⟩,
          ⟨[], 8, 3, [rd * 2 ^ 0 + env.rand 0 * (rd * 2 ^ 0) * (3 / 10),
            rd * 2 ^ 1 + env.rand 1 * (rd * 2 ^ 1) * (3 / 10),
            rd * 2 ^ 2 + env.rand 2 * (rd * 2 ^ 2) * (3 / 10)]⟩) := by
      show fetchLoop env url 3 rd now (3 + 1) 0 ⟨[], 0, 0, []⟩ = _
      rw [fetchLoop_succ, a0]
      show fetchLoop env url 3 rd now (2 + 1) 1
        ⟨[], 2, 1, [rd * 2 ^ 0 + env.rand 0 * (rd * 2 ^ 0) * (3 / 10)]⟩ = _
      rw [fetchLoop_succ, a1]
      show fetchLoop env url 3 rd now (1 + 1) 2
        ⟨[], 4, 2, [rd * 2 ^ 0 + env.rand 0 * (rd * 2 ^ 0) * (3 / 10),
          rd * 2 ^ 1 + env.rand 1 * (rd * 2 ^ 1) * (3 / 10)]⟩ = _
      rw [fetchLoop_succ, a2]
      show fetchLoop env url 3 rd now (0 + 1) 3
        ⟨[], 6, 3, [rd * 2 ^ 0 + env.rand 0 * (rd * 2 ^ 0) * (3 / 10),
          rd * 2 ^ 1 + env.rand 1 * (rd * 2 ^ 1) * (3 / 10),
          rd * 2 ^ 2 + env.rand 2 * (rd * 2 ^ 2) * (3 / 10)]⟩ = _
      rw [fetchLoop_succ, a3]
    rw [key]
    exact ⟨rfl, rfl⟩
  · intro env2 ref now2 ast resp ts hb hf
    unfold track
    simp only [hb]
    rw [if_pos hf]
  · intro ref now3 e u2 hp fst ast hk
    unfold finishCatch trackCatch
    simp only [hk]
    exact ⟨blockedGet_blockedSet ast.blocked ref (.blockedOut e.msg u2 hp) now3, trivial⟩


def c3Resp : HttpResponse :=
  ⟨429, "Too Many Requests", some cHeader, false, some "", none, ""⟩

def c3Env : Env := ⟨fun _ => .ok c3Resp, fun _ => 0⟩

set_option maxRecDepth 100000 in
set_option maxHeartbeats 4000000 in
theorem c3_challenge_blocked_witness :
    ((fetchJson c3Env (searchUrl "X") 3 1000 0 ⟨[], 0, 0, []⟩).1 =
        .err ⟨.captchaBlocked (searchUrl "X") true, blockedAfterSolveMsg (searchUrl "X")⟩ ∧
      (fetchJson c3Env (searchUrl "X") 3 1000 0 ⟨[], 0, 0, []⟩).2.sends = 8) ∧
    (∀ (env2 : Env) (ref : String) (now2 : Nat) (ast : AdSt) (resp : TrackOut) (ts : Nat),
      blockedGet ast.blocked ref = some (resp, ts) → now2 - ts < BLOCKED_TTL_MS →
      track env2 ref now2 ast = (resp, ast)) ∧
    (∀ (ref : String) (now3 : Nat) (e : JsErr) (u2 : String) (hp : Bool) (fst : St)
      (ast : AdSt), e.kind = .captchaBlocked u2 hp →
      blockedGet (finishCatch ref now3 e fst ast).2.blocked ref =
        some (.blockedOut e.msg u2 hp, now3) ∧
      (finishCatch ref now3 e fst ast).1 = .blockedOut e.msg u2 hp) :=
  c3_challenge_blocked c3Env (searchUrl "X") 1000 0 c3Resp cHeader c10Cred
    (fun _ => rfl) rfl rfl (by decide) (by decide) (by decide) (by decide)

set_option maxRecDepth 100000 in
set_option maxHeartbeats 4000000 in
/-- C3 (counterexample to the spec's sentence): after the two scripted
responses `[429+challenge, 429+challenge]` the fetch has not raised Blocked
— it has spent one challenge round (2 sends) and is retrying; if the host
then becomes unreachable the fetch raises a generic network error, never a
blocked payload. -/
theorem c3_challenge_counterexample :
    errKindStr (fetchJson ⟨fun n => if n ≤ 1 then .ok c3Resp else .netFail, fun _ => 0⟩
      (searchUrl "REF") 3 1000 0 ⟨[], 0, 0, []⟩).1 = "generic" ∧
    fetchResStr (fetchJson ⟨fun n => if n ≤ 1 then .ok c3Resp else .netFail, fun _ => 0⟩
      (searchUrl "REF") 3 1000 0 ⟨[], 0, 0, []⟩).1 = "err:fetch failed" ∧
    (fetchJson ⟨fun n => if n ≤ 1 then .ok c3Resp else .netFail, fun _ => 0⟩
      (searchUrl "REF") 3 1000 0 ⟨[], 0, 0, []⟩).2.sends = 3 :=
  ⟨rfl, rfl, rfl⟩


/-! ### C9: secondary calls (details / trip) in `track` -/

theorem finishCatch_fst (ref : String) (now : Nat) (e : JsErr) (fst : St) (ast : AdSt) :
    (finishCatch ref now e fst ast).1 = trackCatch ref e := by
  cases h : trackCatch ref e <;> simp [finishCatch, h]

/-- `track` with a successful search and details fetch and a failed trip
fetch: the trip error is swallowed exactly when its message mentions `404`
or `Not Found`, otherwise it becomes the failure of the whole operation. -/
theorem trackBody_dOk_tErr (env : Env) (ref stt : String) (now : Nat) (st0 : St)
    (search d : Json) (e2 : JsErr) (st1 st2 st3 : St)
    (hS : fetchJson env (searchUrl ref) 3 1000 now st0 = (.ok search, st1))
    (hsr : searchHasResults search = true)
    (hstt : jsonGet (firstResult search) "stt" = some (Json.str stt))
    (hne : stt.isEmpty = false)
    (hD : fetchJson env (detailsUrl stt) 3 1000 now st1 = (.ok d, st2))
    (hT : fetchJson env (tripUrl stt) 3 1000 now st2 = (.err e2, st3)) :
    (is404Msg e2.msg = true →
      track env ref now ⟨st0, []⟩ =
        (buildOk ref (firstResult search) (some d) none, ⟨st3, []⟩)) ∧
    (is404Msg e2.msg = false →
      (track env ref now ⟨st0, []⟩).1 = trackCatch ref e2) := by
  have key : track env ref now ⟨st0, []⟩ =
      if !is404Msg e2.msg then finishCatch ref now e2 st3 ⟨st0, []⟩
      else (buildOk ref (firstResult search) (some d) none, ⟨st3, []⟩) := by
    show trackBody env ref now ⟨st0, []⟩ = _
    unfold trackBody searchShipment fetchShipmentDetailsLandSE fetchTripLandSE
    dsimp only
    rw [hS]
    simp only [hsr, hstt, Option.getD, jsTruthy, hne, Bool.not_false, Bool.not_true,
      Bool.false_eq_true, if_false, jsToStringVal, ite_false]
    rw [hD, hT]
  constructor
  · intro h404
    rw [key, h404]
    rfl
  · intro h404
    rw [key, h404]
    exact finishCatch_fst ref now e2 st3 ⟨st0, []⟩

/-- `track` with a successful search, a failed details fetch and a
successful trip fetch: symmetric to `trackBody_dOk_tErr`. -/
theorem trackBody_dErr_tOk (env : Env) (ref stt : String) (now : Nat) (st0 : St)
    (search t : Json) (e : JsErr) (st1 st2 st3 : St)
    (hS : fetchJson env (searchUrl ref) 3 1000 now st0 = (.ok search, st1))
    (hsr : searchHasResults search = true)
    (hstt : jsonGet (firstResult search) "stt" = some (Json.str stt))
    (hne : stt.isEmpty = false)
    (hD : fetchJson env (detailsUrl stt) 3 1000 now st1 = (.err e, st2))
    (hT : fetchJson env (tripUrl stt) 3 1000 now st2 = (.ok t, st3)) :
    (is404Msg e.msg = true →
      track env ref now ⟨st0, []⟩ =
        (buildOk ref (firstResult search) none (some t), ⟨st3, []⟩)) ∧
    (is404Msg e.msg = false →
      (track env ref now ⟨st0, []⟩).1 = trackCatch ref e) := by
  have key : track env ref now ⟨st0, []⟩ =
      if !is404Msg e.msg then finishCatch ref now e st3 ⟨st0, []⟩
      else (buildOk ref (firstResult search) none (some t), ⟨st3, []⟩) := by
    show trackBody env ref now ⟨st0, []⟩ = _
    unfold trackBody searchShipment fetchShipmentDetailsLandSE fetchTripLandSE
    dsimp only
    rw [hS]
    simp only [hsr, hstt, Option.getD, jsTruthy, hne, Bool.not_false, Bool.not_true,
      Bool.false_eq_true, if_false, jsToStringVal, ite_false]
    rw [hD, hT]
  constructor
  · intro h404
    rw [key, h404]
    rfl
  · intro h404
    rw [key, h404]
    exact finishCatch_fst ref now e st3 ⟨st0, []⟩


/-- C9 (amended): in a full tracking operation the two secondary calls are
settled independently; a failed one is ignored — and the other's data still
used — exactly when its error message mentions `404` or `Not Found`, and
any other failure (challenge, blocked, rate-limit, network) becomes the
failure of the whole operation.  Because the test is a substring match on
the rendered message, it is not equivalent to "the call failed with
not-found" (see the counterexample).  The last two conjuncts exhibit how
the surviving side's data is used when the other is ignored. -/
theorem c9_secondary_calls :
    (∀ (env : Env) (ref stt : String) (now : Nat) (st0 : St) (search t : Json)
      (e : JsErr) (st1 st2 st3 : St),
      fetchJson env (searchUrl ref) 3 1000 now st0 = (.ok search, st1) →
      searchHasResults search = true →
      jsonGet (firstResult search) "stt" = some (Json.str stt) →
      stt.isEmpty = false →
      fetchJson env (detailsUrl stt) 3 1000 now st1 = (.err e, st2) →
      fetchJson env (tripUrl stt) 3 1000 now st2 = (.ok t, st3) →
      (is404Msg e.msg = true →
        track env ref now ⟨st0, []⟩ =
          (buildOk ref (firstResult search) none (some t), ⟨st3, []⟩)) ∧
      (is404Msg e.msg = false →
        (track env ref now ⟨st0, []⟩).1 = trackCatch ref e)) ∧
    (∀ (env : Env) (ref stt : String) (now : Nat) (st0 : St) (search d : Json)
      (e2 : JsErr) (st1 st2 st3 : St),
      fetchJson env (searchUrl ref) 3 1000 now st0 = (.ok search, st1) →
      searchHasResults search = true →
      jsonGet (firstResult search) "stt" = some (Json.str stt) →
      stt.isEmpty = false →
      fetchJson env (detailsUrl stt) 3 1000 now st1 = (.ok d, st2) →
      fetchJson env (tripUrl stt) 3 1000 now st2 = (.err e2, st3) →
      (is404Msg e2.msg = true →
        track env ref now ⟨st0, []⟩ =
          (buildOk ref (firstResult search) (some d) none, ⟨st3, []⟩)) ∧
      (is404Msg e2.msg = false →
        (track env ref now ⟨st0, []⟩).1 = trackCatch ref e2)) ∧
    (∀ (ref : String) (top t : Json),
      buildOk ref top none (some t) =
        .okRes ref (shipmentOf top) Json.null Json.null Json.null (Json.arr [])
          (Json.arr []) (cg t "start") (cg t "end") (Json.arr [])
          (rawHintsOf none) false true) ∧
    (∀ (ref : String) (top d : Json),
      buildOk ref top (some d) none =
        .okRes ref (shipmentOf top) (normalizeSenderReceiver d).1
          (normalizeSenderReceiver d).2 (normalizePackages d).1 (normalizePackages d).2
          (Json.arr []) Json.null Json.null (Json.arr [])
          (rawHintsOf (some d)) true false) :=
  ⟨fun env ref stt now st0 search t e st1 st2 st3 hS hsr hstt hne hD hT =>
      trackBody_dErr_tOk env ref stt now st0 search t e st1 st2 st3 hS hsr hstt hne hD hT,
   fun env ref stt now st0 search d e2 st1 st2 st3 hS hsr hstt hne hD hT =>
      trackBody_dOk_tErr env ref stt now st0 search d e2 st1 st2 st3 hS hsr hstt hne hD hT,
   fun _ _ _ => rfl, fun _ _ _ => rfl⟩


def c9SearchJson : Json := Json.obj [("result", Json.arr [Json.obj [("stt", Json.str "S1")]])]
def c9TripJson : Json :=
  Json.obj [("start", Json.str "A"), ("end", Json.str "B"), ("trip", Json.arr [])]
def c9DJson : Json := Json.obj []
def c9RS : HttpResponse := ⟨200, "OK", none, true, none, some c9SearchJson, ""⟩
def c9RT : HttpResponse := ⟨200, "OK", none, true, none, some c9TripJson, ""⟩
def c9RD : HttpResponse := ⟨200, "OK", none, true, none, some c9DJson, ""⟩
def c9R404 : HttpResponse := ⟨404, "Not Found", none, false, some "", none, ""⟩
def c9RB : HttpResponse := ⟨429, "Too Many Requests", some "", false, some "", none, ""⟩

/-- Search OK, then four 404s for details, then trip OK. -/
def c9EnvA : Env :=
  ⟨fun n => if n = 0 then .ok c9RS else if n ≤ 4 then .ok c9R404 else .ok c9RT, fun _ => 0⟩

/-- Search OK, details OK, then persistent 429 with an empty challenge
header for the trip. -/
def c9EnvB : Env :=
  ⟨fun n => if n = 0 then .ok c9RS else if n = 1 then .ok c9RD else .ok c9RB, fun _ => 0⟩

set_option maxRecDepth 100000 in
set_option maxHeartbeats 2000000 in
theorem c9_secondary_calls_witness :
    track c9EnvA "REF" 7 ⟨⟨[], 0, 0, []⟩, []⟩ =
      (buildOk "REF" (firstResult c9SearchJson) none (some c9TripJson),
        ⟨⟨cacheSet [(searchUrl "REF", c9SearchJson, 7)] (tripUrl "S1") c9TripJson 7, 6, 3,
          [1000 * 2 ^ 0 + 0 * (1000 * 2 ^ 0) * (3 / 10),
           1000 * 2 ^ 1 + 0 * (1000 * 2 ^ 1) * (3 / 10),
           1000 * 2 ^ 2 + 0 * (1000 * 2 ^ 2) * (3 / 10)]⟩, []⟩) ∧
    (track c9EnvB "REF" 7 ⟨⟨[], 0, 0, []⟩, []⟩).1 =
      trackCatch "REF" ⟨.captchaBlocked (tripUrl "S1") false, noHeaderMsg (tripUrl "S1")⟩ :=
  ⟨(c9_secondary_calls.1 c9EnvA "REF" "S1" 7 ⟨[], 0, 0, []⟩ c9SearchJson c9TripJson
      ⟨.generic none, httpErrMsg 404 "Not Found" (detailsUrl "S1") ""⟩
      ⟨[(searchUrl "REF", c9SearchJson, 7)], 1, 0, []⟩
      ⟨[(searchUrl "REF", c9SearchJson, 7)], 5, 3,
        [1000 * 2 ^ 0 + 0 * (1000 * 2 ^ 0) * (3 / 10),
         1000 * 2 ^ 1 + 0 * (1000 * 2 ^ 1) * (3 / 10),
         1000 * 2 ^ 2 + 0 * (1000 * 2 ^ 2) * (3 / 10)]⟩
      ⟨cacheSet [(searchUrl "REF", c9SearchJson, 7)] (tripUrl "S1") c9TripJson 7, 6, 3,
        [1000 * 2 ^ 0 + 0 * (1000 * 2 ^ 0) * (3 / 10),
         1000 * 2 ^ 1 + 0 * (1000 * 2 ^ 1) * (3 / 10),
         1000 * 2 ^ 2 + 0 * (1000 * 2 ^ 2) * (3 / 10)]⟩
      rfl rfl rfl rfl rfl rfl).1 rfl,
   (c9_secondary_calls.2.1 c9EnvB "REF" "S1" 7 ⟨[], 0, 0, []⟩ c9SearchJson c9DJson
      ⟨.captchaBlocked (tripUrl "S1") false, noHeaderMsg (tripUrl "S1")⟩
      ⟨[(searchUrl "REF", c9SearchJson, 7)], 1, 0, []⟩
      ⟨cacheSet [(searchUrl "REF", c9SearchJson, 7)] (detailsUrl "S1") c9DJson 7, 2, 0, []⟩
      ⟨cacheSet [(searchUrl "REF", c9SearchJson, 7)] (detailsUrl "S1") c9DJson 7, 6, 3,
        [1000 * 2 ^ 0 + 0 * (1000 * 2 ^ 0) * (3 / 10),
         1000 * 2 ^ 1 + 0 * (1000 * 2 ^ 1) * (3 / 10),
         1000 * 2 ^ 2 + 0 * (1000 * 2 ^ 2) * (3 / 10)]⟩
      rfl rfl rfl rfl rfl rfl).2 rfl⟩


/-- Search OK, details OK, then persistent plain 429 for the trip, with
`Math.random` returning 117/200 on its fourth draw. -/
def c9EnvC : Env :=
  ⟨fun n => if n = 0 then .ok c9RS else if n = 1 then .ok c9RD else .ok c5Resp,
   fun i => if i = 3 then (117 : ℚ) / 200 else 0⟩

set_option maxRecDepth 100000 in
set_option maxHeartbeats 2000000 in
/-- C9 (counterexample to the spec's sentence): a rate-limit failure of the
trip call does not propagate when the rendered backoff delay happens to
contain `404`.  With `Math.random` drawing 117/200 on the final attempt the
delay is `8000 + 0.585 * 8000 * 0.3 = 9404` ms, the thrown message ends in
`Backoff delay: 9404ms`, the adapter's `includes("404")` test matches, the
rate-limit error is treated like a missing endpoint, and the operation
returns `ok: true` with the trip silently absent. -/
theorem c9_swallow_counterexample :
    trackOutStr (track c9EnvC "REF" 7 ⟨⟨[], 0, 0, []⟩, []⟩).1 =
      "ok:REF:hasDetails=true:hasTrip=false:tripStart=null" ∧
    is404Msg (rateLimitMsg (tripUrl "S1") 3 3
      (1000 * 2 ^ 3 + (117 / 200 : ℚ) * (1000 * 2 ^ 3) * (3 / 10)) "") = true := by
  have hd3 : jsRound (1000 * 2 ^ 3 + (117 / 200 : ℚ) * (1000 * 2 ^ 3) * (3 / 10)) = 9404 := by
    show (⌊(1000 * 2 ^ 3 + (117 / 200 : ℚ) * (1000 * 2 ^ 3) * (3 / 10)) + 1 / 2⌋ : ℤ) = 9404
    rw [Int.floor_eq_iff]
    norm_num
  have hmsg : rateLimitMsg (tripUrl "S1") 3 3
      (1000 * 2 ^ 3 + (117 / 200 : ℚ) * (1000 * 2 ^ 3) * (3 / 10)) "" =
      "HTTP 429 Too Many Requests (Rate Limited) | URL: https://www.dbschenker.com/nges-portal/api/public/tracking-public/shipments/land/LandStt%3AS1/trip | Attempt: 4/4 | Backoff delay: 9404ms" := by
    unfold rateLimitMsg
    rw [hd3]
    rfl
  have h404c : is404Msg (rateLimitMsg (tripUrl "S1") 3 3
      (1000 * 2 ^ 3 + (117 / 200 : ℚ) * (1000 * 2 ^ 3) * (3 / 10)) "") = true := by
    rw [hmsg]
    rfl
  refine ⟨?_, h404c⟩
  have hmain := (trackBody_dOk_tErr c9EnvC "REF" "S1" 7 ⟨[], 0, 0, []⟩ c9SearchJson c9DJson
      ⟨.generic none, rateLimitMsg (tripUrl "S1") 3 3
        (1000 * 2 ^ 3 + (117 / 200 : ℚ) * (1000 * 2 ^ 3) * (3 / 10)) ""⟩
      ⟨[(searchUrl "REF", c9SearchJson, 7)], 1, 0, []⟩
      ⟨cacheSet [(searchUrl "REF", c9SearchJson, 7)] (detailsUrl "S1") c9DJson 7, 2, 0, []⟩
      ⟨cacheSet [(searchUrl "REF", c9SearchJson, 7)] (detailsUrl "S1") c9DJson 7, 6, 4,
        [1000 * 2 ^ 0 + 0 * (1000 * 2 ^ 0) * (3 / 10),
         1000 * 2 ^ 1 + 0 * (1000 * 2 ^ 1) * (3 / 10),
         1000 * 2 ^ 2 + 0 * (1000 * 2 ^ 2) * (3 / 10)]⟩
      rfl rfl rfl rfl rfl rfl).1 h404c
  rw [hmain]
  rfl
